import Mathlib

/-!
# X11 gamma ramp handling (`src/x11_gamma.c`)

A shallow embedding of the four functions of `x11_gamma.c`:
`_glfwInitGammaRamp`, `_glfwTerminateGammaRamp`, `_glfwPlatformGetGammaRamp`
and `_glfwPlatformSetGammaRamp`.

The C code works on the global library state `_glfw` and talks to the X server
through the RandR and XF86VidMode client libraries.  Here a `World` carries

* the library state `_glfw`,
* the X server's gamma tables (one per CRTC for RandR, one for the screen for
  XF86VidMode),
* the list of extension calls issued so far, in order,
* the list of errors reported through `_glfwInputError`, in order.

Every function threads the `World` explicitly.  A result of `none` stands for
an execution that does not return normally: an out-of-bounds array access in
the C code (`rr->crtcs[0]` with no CRTC, a `memcpy` that reads or writes past
the end of an array) or an X request naming an object the server does not have.

The X server is modelled as a store: a set request overwrites the addressed
table with what is sent, a get request returns what the table holds.
-/

namespace X11Gamma

/-! ## Data model -/

/-- Modelled from the spec: the constant `GLFW_GAMMA_RAMP_SIZE` lives in a header
that is not part of the fragment.  The spec speaks of a fixed-size ramp and the
comment in `_glfwPlatformGetGammaRamp` names the size: 256. -/
def GLFW_GAMMA_RAMP_SIZE : Nat := 256

/-- The error code the source hands to `_glfwInputError`. -/
inductive GLFWerror where
  | GLFW_PLATFORM_ERROR
deriving DecidableEq, Repr

/-- Modelled from the spec: the struct `GLFWgammaramp` is declared in a header that
is not part of the fragment.  The source uses its three arrays `red`, `green`
and `blue` of `unsigned short`, each a fixed-size buffer of
`GLFW_GAMMA_RAMP_SIZE` entries; see `GLFWgammaramp.wf`.  The entries are only
ever copied, so they are kept as natural numbers. -/
structure GLFWgammaramp where
  red : List Nat
  green : List Nat
  blue : List Nat
deriving DecidableEq, Repr

/-- The C type invariant of `GLFWgammaramp`: each channel has exactly
`GLFW_GAMMA_RAMP_SIZE` entries. -/
def GLFWgammaramp.wf (r : GLFWgammaramp) : Prop :=
  r.red.length = GLFW_GAMMA_RAMP_SIZE ∧
  r.green.length = GLFW_GAMMA_RAMP_SIZE ∧
  r.blue.length = GLFW_GAMMA_RAMP_SIZE

instance (r : GLFWgammaramp) : Decidable r.wf := by
  unfold GLFWgammaramp.wf; infer_instance

/-- The Xrandr struct `XRRCrtcGamma`: a gamma table with its size and its three
channels.  The same shape is used for the tables the X server holds. -/
structure XRRCrtcGamma where
  size : Int
  red : List Nat
  green : List Nat
  blue : List Nat
deriving DecidableEq, Repr

/-- A table is sound when each channel has exactly `size` entries. -/
def XRRCrtcGamma.sound (t : XRRCrtcGamma) : Prop :=
  (t.red.length : Int) = t.size ∧ (t.green.length : Int) = t.size ∧
  (t.blue.length : Int) = t.size

instance (t : XRRCrtcGamma) : Decidable t.sound := by
  unfold XRRCrtcGamma.sound; infer_instance

/-- An `RRCrtc` identifies a CRTC; here it is the position of the CRTC in the
server's list. -/
abbrev RRCrtc := Nat

/-- The Xrandr struct `XRRScreenResources`, restricted to the two fields the code
reads. -/
structure XRRScreenResources where
  ncrtc : Nat
  crtcs : List RRCrtc
deriving DecidableEq, Repr

/-- The fields of `_glfw.x11.randr` the source reads and writes. -/
structure RandRState where
  available : Bool
  versionMajor : Int
  versionMinor : Int
  gammaBroken : Bool
deriving DecidableEq, Repr

/-- The field of `_glfw.x11.vidmode` the source reads. -/
structure VidModeState where
  available : Bool
deriving DecidableEq, Repr

/-- The part of `_glfw.x11` the source reads and writes. -/
structure X11State where
  randr : RandRState
  vidmode : VidModeState
deriving DecidableEq, Repr

/-- The global library state `_glfw`, restricted to the fields the source reads
and writes. -/
structure GLFWlibrary where
  originalRampSize : Int
  rampChanged : Bool
  originalRamp : GLFWgammaramp
  x11 : X11State
deriving DecidableEq, Repr

/-- The gamma tables held by the X server. -/
structure XServer where
  crtcs : List XRRCrtcGamma
  screen : XRRCrtcGamma
deriving DecidableEq, Repr

/-- A call into one of the two extension libraries, with the arguments that
matter. -/
inductive XCall where
  | XRRGetScreenResources
  | XRRGetCrtcGammaSize (crtc : RRCrtc)
  | XRRGetCrtcGamma (crtc : RRCrtc)
  | XRRAllocGamma (size : Int)
  | XRRSetCrtcGamma (crtc : RRCrtc) (gamma : XRRCrtcGamma)
  | XRRFreeGamma
  | XRRFreeScreenResources
  | XF86VidModeGetGammaRampSize
  | XF86VidModeGetGammaRamp (size : Int)
  | XF86VidModeSetGammaRamp (size : Int) (red green blue : List Nat)
deriving DecidableEq, Repr

/-- The calls that belong to the RandR library. -/
def XCall.isRandR : XCall → Bool
  | .XRRGetScreenResources => true
  | .XRRGetCrtcGammaSize _ => true
  | .XRRGetCrtcGamma _ => true
  | .XRRAllocGamma _ => true
  | .XRRSetCrtcGamma _ _ => true
  | .XRRFreeGamma => true
  | .XRRFreeScreenResources => true
  | _ => false

/-- The calls that belong to the XF86VidMode library. -/
def XCall.isVidMode : XCall → Bool
  | .XF86VidModeGetGammaRampSize => true
  | .XF86VidModeGetGammaRamp _ => true
  | .XF86VidModeSetGammaRamp _ _ _ _ => true
  | _ => false

/-- The RandR calls that query or change gamma. -/
def XCall.isRandRGamma : XCall → Bool
  | .XRRGetCrtcGammaSize _ => true
  | .XRRGetCrtcGamma _ => true
  | .XRRSetCrtcGamma _ _ => true
  | _ => false

/-- The program state together with its environment. -/
structure World where
  _glfw : GLFWlibrary
  server : XServer
  trace : List XCall
  errors : List (GLFWerror × String)
deriving DecidableEq, Repr

/-- Record an extension call. -/
def World.call (w : World) (c : XCall) : World :=
  { w with trace := w.trace ++ [c] }

/-! ## The environment: libc, the error sink and the two extension libraries -/

/-- The libc call `memcpy(dst, src, n)` on arrays, `n` counted in entries: the first `n`
entries of `dst` are replaced by the first `n` entries of `src`.  Copying past
the end of either array is undefined. -/
def memcpy (dst src : List Nat) (n : Nat) : Option (List Nat) :=
  if n ≤ src.length ∧ n ≤ dst.length then some (src.take n ++ dst.drop n) else none

/-- Modelled from the spec: the error sink `_glfwInputError` is defined outside the
fragment; a call is recorded with its code and message, in order. -/
def _glfwInputError (w : World) (code : GLFWerror) (msg : String) : World :=
  { w with errors := w.errors ++ [(code, msg)] }

/-- The call `XRRGetScreenResources`: the CRTC ids of the screen. -/
def XRRGetScreenResources (w : World) : World × XRRScreenResources :=
  (w.call .XRRGetScreenResources,
   { ncrtc := w.server.crtcs.length, crtcs := List.range w.server.crtcs.length })

/-- The call `XRRFreeScreenResources`. -/
def XRRFreeScreenResources (w : World) : World :=
  w.call .XRRFreeScreenResources

/-- The call `XRRGetCrtcGammaSize`: the size of the gamma table of a CRTC. -/
def XRRGetCrtcGammaSize (w : World) (crtc : RRCrtc) : Option (World × Int) :=
  match w.server.crtcs[crtc]? with
  | some t => some (w.call (.XRRGetCrtcGammaSize crtc), t.size)
  | none => none

/-- The call `XRRGetCrtcGamma`: a copy of the gamma table of a CRTC. -/
def XRRGetCrtcGamma (w : World) (crtc : RRCrtc) : Option (World × XRRCrtcGamma) :=
  match w.server.crtcs[crtc]? with
  | some t => some (w.call (.XRRGetCrtcGamma crtc), t)
  | none => none

/-- The call `XRRAllocGamma`: a fresh table of the given size. -/
def XRRAllocGamma (w : World) (size : Int) : World × XRRCrtcGamma :=
  (w.call (.XRRAllocGamma size),
   { size := size,
     red := List.replicate size.toNat 0,
     green := List.replicate size.toNat 0,
     blue := List.replicate size.toNat 0 })

/-- The call `XRRSetCrtcGamma`: the server stores the table for the CRTC. -/
def XRRSetCrtcGamma (w : World) (crtc : RRCrtc) (gamma : XRRCrtcGamma) : Option World :=
  if crtc < w.server.crtcs.length then
    some { w with
      server := { w.server with crtcs := w.server.crtcs.set crtc gamma }
      trace := w.trace ++ [.XRRSetCrtcGamma crtc gamma] }
  else none

/-- The call `XRRFreeGamma`. -/
def XRRFreeGamma (w : World) : World :=
  w.call .XRRFreeGamma

/-- The call `XF86VidModeGetGammaRampSize`: the size of the screen's gamma table. -/
def XF86VidModeGetGammaRampSize (w : World) : World × Int :=
  (w.call .XF86VidModeGetGammaRampSize, w.server.screen.size)

/-- The call `XF86VidModeGetGammaRamp`: the first `size` entries of each channel of the
screen's table are written to the three arrays. -/
def XF86VidModeGetGammaRamp (w : World) (size : Int) (red green blue : List Nat) :
    Option (World × List Nat × List Nat × List Nat) :=
  match memcpy red w.server.screen.red size.toNat,
        memcpy green w.server.screen.green size.toNat,
        memcpy blue w.server.screen.blue size.toNat with
  | some r, some g, some b => some (w.call (.XF86VidModeGetGammaRamp size), r, g, b)
  | _, _, _ => none

/-- The call `XF86VidModeSetGammaRamp`: the server stores the first `size` entries of
each array as the screen's table. -/
def XF86VidModeSetGammaRamp (w : World) (size : Int) (red green blue : List Nat) :
    Option World :=
  if size.toNat ≤ red.length ∧ size.toNat ≤ green.length ∧ size.toNat ≤ blue.length then
    some { w with
      server := { w.server with
        screen := { size := size, red := red.take size.toNat,
                    green := green.take size.toNat, blue := blue.take size.toNat } }
      trace := w.trace ++ [.XF86VidModeSetGammaRamp size red green blue] }
  else none

/-! ## The four functions of `x11_gamma.c` -/

/-- The function `_glfwPlatformGetGammaRamp(ramp)`: returns the new world and the new
contents of `*ramp`. -/
def _glfwPlatformGetGammaRamp (w : World) (ramp : GLFWgammaramp) :
    Option (World × GLFWgammaramp) :=
  -- For now, don't support anything that is not GLFW_GAMMA_RAMP_SIZE
  if w._glfw.originalRampSize ≠ (GLFW_GAMMA_RAMP_SIZE : Int) then
    some (_glfwInputError w .GLFW_PLATFORM_ERROR
            "X11: Failed to get gamma ramp due to size incompatibility", ramp)
  else if w._glfw.x11.randr.available && !w._glfw.x11.randr.gammaBroken then
    let size := GLFW_GAMMA_RAMP_SIZE
    let (w1, rr) := XRRGetScreenResources w
    match rr.crtcs[0]? with
    | none => none
    | some crtc =>
      match XRRGetCrtcGamma w1 crtc with
      | none => none
      | some (w2, gamma) =>
        match memcpy ramp.red gamma.red size, memcpy ramp.green gamma.green size,
              memcpy ramp.blue gamma.blue size with
        | some red, some green, some blue =>
          let w3 := XRRFreeGamma w2
          let w4 := XRRFreeScreenResources w3
          some (w4, { red := red, green := green, blue := blue })
        | _, _, _ => none
  else if w._glfw.x11.vidmode.available then
    match XF86VidModeGetGammaRamp w GLFW_GAMMA_RAMP_SIZE ramp.red ramp.green ramp.blue with
    | some (w1, red, green, blue) => some (w1, { red := red, green := green, blue := blue })
    | none => none
  else some (w, ramp)

/-- The body of the loop `for (i = 0; i < rr->ncrtc; i++)` of
`_glfwPlatformSetGammaRamp`, run for the `todo` remaining indices starting at
`i`; the loop is entered with `todo = rr->ncrtc` and `i = 0`. -/
def updateGammaPerMonitor (rr : XRRScreenResources) (ramp : GLFWgammaramp) :
    Nat → Nat → World → Option World
  | 0, _, w => some w
  | todo + 1, i, w =>
    let size := GLFW_GAMMA_RAMP_SIZE
    let (w1, gamma) := XRRAllocGamma w GLFW_GAMMA_RAMP_SIZE
    match memcpy gamma.red ramp.red size, memcpy gamma.green ramp.green size,
          memcpy gamma.blue ramp.blue size, rr.crtcs[i]? with
    | some red, some green, some blue, some crtc =>
      match XRRSetCrtcGamma w1 crtc { gamma with red := red, green := green, blue := blue } with
      | some w2 => updateGammaPerMonitor rr ramp todo (i + 1) (XRRFreeGamma w2)
      | none => none
    | _, _, _, _ => none

/-- The function `_glfwPlatformSetGammaRamp(ramp)`. -/
def _glfwPlatformSetGammaRamp (w : World) (ramp : GLFWgammaramp) : Option World :=
  -- For now, don't support anything that is not GLFW_GAMMA_RAMP_SIZE
  if w._glfw.originalRampSize ≠ (GLFW_GAMMA_RAMP_SIZE : Int) then
    some (_glfwInputError w .GLFW_PLATFORM_ERROR
            "X11: Failed to set gamma ramp due to size incompatibility")
  else if w._glfw.x11.randr.available && !w._glfw.x11.randr.gammaBroken then
    let (w1, rr) := XRRGetScreenResources w
    -- Update gamma per monitor
    match updateGammaPerMonitor rr ramp rr.ncrtc 0 w1 with
    | some w2 => some (XRRFreeScreenResources w2)
    | none => none
  else if w._glfw.x11.vidmode.available then
    XF86VidModeSetGammaRamp w GLFW_GAMMA_RAMP_SIZE ramp.red ramp.green ramp.blue
  else some w

/-- The first block of `_glfwInitGammaRamp`: the RandR probe. -/
def initRandR (w : World) : Option World :=
  -- RandR gamma support is only available with version 1.2 and above
  if w._glfw.x11.randr.available &&
      (decide (w._glfw.x11.randr.versionMajor > 1) ||
        (decide (w._glfw.x11.randr.versionMajor = 1) &&
          decide (w._glfw.x11.randr.versionMinor ≥ 2))) then
    let (w1, rr) := XRRGetScreenResources w
    match rr.crtcs[0]? with
    | none => none
    | some crtc =>
      match XRRGetCrtcGammaSize w1 crtc with
      | none => none
      | some (w2, size) =>
        let w3 : World := { w2 with _glfw := { w2._glfw with originalRampSize := size } }
        let w4 : World :=
          if w3._glfw.originalRampSize = 0 then
            -- Flag it as useless and try Xf86VidMode below, if available
            { w3 with _glfw := { w3._glfw with
                x11 := { w3._glfw.x11 with
                  randr := { w3._glfw.x11.randr with gammaBroken := true } } } }
          else w3
        some (XRRFreeScreenResources w4)
  else some w

/-- The second block of `_glfwInitGammaRamp`: the XF86VidMode probe. -/
def initVidMode (w : World) : World :=
  if w._glfw.x11.vidmode.available && decide (w._glfw.originalRampSize = 0) then
    -- Get the gamma size using XF86VidMode
    let (w1, size) := XF86VidModeGetGammaRampSize w
    { w1 with _glfw := { w1._glfw with originalRampSize := size } }
  else w

/-- The third block of `_glfwInitGammaRamp`: save the original gamma ramp. -/
def initSave (w : World) : Option World :=
  if w._glfw.originalRampSize ≠ 0 then
    match _glfwPlatformGetGammaRamp w w._glfw.originalRamp with
    | some (w1, ramp) => some { w1 with _glfw := { w1._glfw with originalRamp := ramp } }
    | none => none
  else some w

/-- The function `_glfwInitGammaRamp()`: the three blocks in sequence. -/
def _glfwInitGammaRamp (w : World) : Option World :=
  match initRandR w with
  | none => none
  | some w1 => initSave (initVidMode w1)

/-- The function `_glfwTerminateGammaRamp()`. -/
def _glfwTerminateGammaRamp (w : World) : Option World :=
  if w._glfw.originalRampSize ≠ 0 ∧ w._glfw.rampChanged = true then
    _glfwPlatformSetGammaRamp w w._glfw.originalRamp
  else some w

/-! ## Vocabulary for the statements -/

/-- The table holds at least `GLFW_GAMMA_RAMP_SIZE` entries in each channel, so
that reading that many entries stays inside the arrays. -/
def XRRCrtcGamma.readable (t : XRRCrtcGamma) : Prop :=
  GLFW_GAMMA_RAMP_SIZE ≤ t.red.length ∧ GLFW_GAMMA_RAMP_SIZE ≤ t.green.length ∧
  GLFW_GAMMA_RAMP_SIZE ≤ t.blue.length

instance (t : XRRCrtcGamma) : Decidable t.readable := by
  unfold XRRCrtcGamma.readable; infer_instance

/-- The first `GLFW_GAMMA_RAMP_SIZE` entries of each channel of a table, as a
ramp. -/
def XRRCrtcGamma.toRamp (t : XRRCrtcGamma) : GLFWgammaramp :=
  { red := t.red.take GLFW_GAMMA_RAMP_SIZE, green := t.green.take GLFW_GAMMA_RAMP_SIZE,
    blue := t.blue.take GLFW_GAMMA_RAMP_SIZE }

/-- A ramp as a table of size `GLFW_GAMMA_RAMP_SIZE` carrying its entries
unchanged. -/
def GLFWgammaramp.toGamma (r : GLFWgammaramp) : XRRCrtcGamma :=
  { size := GLFW_GAMMA_RAMP_SIZE, red := r.red, green := r.green, blue := r.blue }

/-- The extension calls of one round of the per-monitor loop for CRTC `i`. -/
def monitorCalls (ramp : GLFWgammaramp) (i : Nat) : List XCall :=
  [.XRRAllocGamma GLFW_GAMMA_RAMP_SIZE, .XRRSetCrtcGamma i ramp.toGamma, .XRRFreeGamma]

/-- The `XRRSetCrtcGamma` calls of a trace, in order, as pairs of CRTC and
table. -/
def setCrtcGammaCalls : List XCall → List (RRCrtc × XRRCrtcGamma)
  | [] => []
  | .XRRSetCrtcGamma crtc gamma :: cs => (crtc, gamma) :: setCrtcGammaCalls cs
  | _ :: cs => setCrtcGammaCalls cs

/-- The guard of the RandR branch of get and set. -/
def randrSelected (w : World) : Bool :=
  w._glfw.x11.randr.available && !w._glfw.x11.randr.gammaBroken

/-- The version test of `_glfwInitGammaRamp`: RandR 1.2 or above. -/
def randrAtLeast12 (w : World) : Prop :=
  w._glfw.x11.randr.versionMajor > 1 ∨
    (w._glfw.x11.randr.versionMajor = 1 ∧ w._glfw.x11.randr.versionMinor ≥ 2)

instance (w : World) : Decidable (randrAtLeast12 w) := by
  unfold randrAtLeast12; infer_instance

/-- A ramp with every entry equal to `v`. -/
def constRamp (v : Nat) : GLFWgammaramp :=
  { red := List.replicate GLFW_GAMMA_RAMP_SIZE v,
    green := List.replicate GLFW_GAMMA_RAMP_SIZE v,
    blue := List.replicate GLFW_GAMMA_RAMP_SIZE v }

/-- A table of `n` entries per channel, every entry equal to `v`. -/
def constTable (n v : Nat) : XRRCrtcGamma :=
  { size := n, red := List.replicate n v, green := List.replicate n v,
    blue := List.replicate n v }

/-- A library state as left by zero-initialisation followed by extension
detection: no ramp size, nothing changed, an all-zero saved ramp. -/
def zeroedLibrary (randrAvailable : Bool) (major minor : Int) (vidmodeAvailable : Bool) :
    GLFWlibrary :=
  { originalRampSize := 0, rampChanged := false, originalRamp := constRamp 0,
    x11 := { randr := { available := randrAvailable, versionMajor := major,
                        versionMinor := minor, gammaBroken := false },
             vidmode := { available := vidmodeAvailable } } }

/-- The tables that get would read in this state hold enough entries: the first
CRTC exists and is readable when the RandR branch is taken, the screen's table
is readable when the XF86VidMode branch is taken. -/
def tablesReadable (w : World) : Prop :=
  (randrSelected w = true → ∃ t, w.server.crtcs.head? = some t ∧ t.readable) ∧
  (randrSelected w = false → w._glfw.x11.vidmode.available = true →
    w.server.screen.readable)

/-- The message of the error reported by `_glfwPlatformGetGammaRamp`. -/
def getErrorMessage : String :=
  "X11: Failed to get gamma ramp due to size incompatibility"

/-- The message of the error reported by `_glfwPlatformSetGammaRamp`. -/
def setErrorMessage : String :=
  "X11: Failed to set gamma ramp due to size incompatibility"

/-- A sample state after start-up under RandR 1.2: two CRTCs and a screen table
of 256 entries each, the saved ramp taken from the first CRTC. -/
def sampleRandR : World :=
  { _glfw :=
      { originalRampSize := 256, rampChanged := true, originalRamp := constRamp 7,
        x11 := { randr := { available := true, versionMajor := 1, versionMinor := 2,
                            gammaBroken := false },
                 vidmode := { available := true } } },
    server := { crtcs := [constTable 256 3, constTable 256 4], screen := constTable 256 9 },
    trace := [], errors := [] }

/-- A sample state after start-up under XF86VidMode only. -/
def sampleVidMode : World :=
  { _glfw :=
      { originalRampSize := 256, rampChanged := true, originalRamp := constRamp 9,
        x11 := { randr := { available := false, versionMajor := 0, versionMinor := 0,
                            gammaBroken := false },
                 vidmode := { available := true } } },
    server := { crtcs := [], screen := constTable 256 5 },
    trace := [], errors := [] }

/-- A sample state in which the display reported a ramp of 1024 entries. -/
def sampleLargeRamp : World :=
  { _glfw :=
      { originalRampSize := 1024, rampChanged := true, originalRamp := constRamp 0,
        x11 := { randr := { available := true, versionMajor := 1, versionMinor := 3,
                            gammaBroken := false },
                 vidmode := { available := false } } },
    server := { crtcs := [constTable 1024 3], screen := constTable 1024 3 },
    trace := [], errors := [] }

/-- The world after the RandR probe of `_glfwInitGammaRamp` has read the table
`t` of the first CRTC: the size is recorded, `gammaBroken` is set when the size
is 0, and three RandR calls have been issued. -/
def afterRandRProbe (w : World) (t : XRRCrtcGamma) : World :=
  { w with
    _glfw := { w._glfw with
      originalRampSize := t.size
      x11 := { w._glfw.x11 with
        randr := { w._glfw.x11.randr with
          gammaBroken := decide (t.size = 0) || w._glfw.x11.randr.gammaBroken } } }
    trace := w.trace ++
      [.XRRGetScreenResources, .XRRGetCrtcGammaSize 0, .XRRFreeScreenResources] }

/-- The size the RandR probe of `_glfwInitGammaRamp` yields: the gamma size of
the first CRTC when RandR is available at version 1.2 or above, and 0 when the
probe is skipped. -/
def randrReportedSize (w : World) : Int :=
  if w._glfw.x11.randr.available = true ∧ randrAtLeast12 w then
    match w.server.crtcs.head? with
    | some t => t.size
    | none => 0
  else 0

/-- Every table of the server has as many entries per channel as its size
says. -/
def XServer.sound (s : XServer) : Prop :=
  (∀ t ∈ s.crtcs, t.sound) ∧ s.screen.sound

/-- The world after the XF86VidMode probe of `_glfwInitGammaRamp` has run: the
size of the screen's table is recorded and one call has been issued. -/
def afterVidModeProbe (w : World) : World :=
  { w with
    _glfw := { w._glfw with originalRampSize := w.server.screen.size }
    trace := w.trace ++ [.XF86VidModeGetGammaRampSize] }

instance (s : XServer) : Decidable s.sound := by
  unfold XServer.sound; infer_instance

/-- The table of the extension whose size `_glfwInitGammaRamp` records: that of
the first CRTC when the RandR probe yields a non-zero size, else that of the
screen when XF86VidMode is available. -/
def reportedTable (w : World) : Option XRRCrtcGamma :=
  if randrReportedSize w ≠ 0 then w.server.crtcs.head?
  else if w._glfw.x11.vidmode.available = true then some w.server.screen
  else none

/-- A start state: RandR 1.2 and XF86VidMode available, two CRTCs and a screen
table of 256 entries each. -/
def startRandR : World :=
  { _glfw := zeroedLibrary true 1 2 true,
    server := { crtcs := [constTable 256 3, constTable 256 4], screen := constTable 256 9 },
    trace := [], errors := [] }

/-- A start state: RandR 1.3 whose first CRTC reports a gamma size of 0, and
XF86VidMode available with a table of 256 entries. -/
def startBrokenRandR : World :=
  { _glfw := zeroedLibrary true 1 3 true,
    server := { crtcs := [constTable 0 0], screen := constTable 256 9 },
    trace := [], errors := [] }

/-- The state `_glfwInitGammaRamp` reaches from `startBrokenRandR`. -/
def afterInitBrokenRandR : World :=
  { _glfw :=
      { originalRampSize := 256, rampChanged := false, originalRamp := constRamp 9,
        x11 := { randr := { available := true, versionMajor := 1, versionMinor := 3,
                            gammaBroken := true },
                 vidmode := { available := true } } },
    server := { crtcs := [constTable 0 0], screen := constTable 256 9 },
    trace := [.XRRGetScreenResources, .XRRGetCrtcGammaSize 0, .XRRFreeScreenResources,
              .XF86VidModeGetGammaRampSize, .XF86VidModeGetGammaRamp 256],
    errors := [] }

/-- A start state: RandR 1.3 only, one CRTC whose gamma table has 1024 entries,
all equal to 3. -/
def startLargeRamp : World :=
  { _glfw := zeroedLibrary true 1 3 false,
    server := { crtcs := [constTable 1024 3], screen := constTable 1024 3 },
    trace := [], errors := [] }

/-- A start state: RandR 1.1 and XF86VidMode available, one CRTC and a screen
table of 256 entries each. -/
def startOldRandR : World :=
  { _glfw := zeroedLibrary true 1 1 true,
    server := { crtcs := [constTable 256 7], screen := constTable 256 9 },
    trace := [], errors := [] }

/-! ## Auxiliary facts -/

theorem memcpy_take {dst src : List Nat} {n : Nat} (hn : n ≤ src.length)
    (hd : dst.length = n) : memcpy dst src n = some (src.take n) := by
  have h : List.drop n dst = [] := by
    rw [List.drop_eq_nil_iff]; omega
  simp [memcpy, hn, hd, h]

theorem memcpy_exact {dst src : List Nat} {n : Nat} (hs : src.length = n)
    (hd : dst.length = n) : memcpy dst src n = some src := by
  rw [memcpy_take (by omega) hd, List.take_of_length_le (by omega)]

theorem get_size_mismatch (w : World) (ramp : GLFWgammaramp)
    (h : w._glfw.originalRampSize ≠ (GLFW_GAMMA_RAMP_SIZE : Int)) :
    _glfwPlatformGetGammaRamp w ramp =
      some (_glfwInputError w .GLFW_PLATFORM_ERROR
        "X11: Failed to get gamma ramp due to size incompatibility", ramp) := by
  simp [_glfwPlatformGetGammaRamp, h]

theorem set_size_mismatch (w : World) (ramp : GLFWgammaramp)
    (h : w._glfw.originalRampSize ≠ (GLFW_GAMMA_RAMP_SIZE : Int)) :
    _glfwPlatformSetGammaRamp w ramp =
      some (_glfwInputError w .GLFW_PLATFORM_ERROR
        "X11: Failed to set gamma ramp due to size incompatibility") := by
  simp [_glfwPlatformSetGammaRamp, h]

theorem get_randr (w : World) (ramp : GLFWgammaramp) (t : XRRCrtcGamma)
    (ts : List XRRCrtcGamma)
    (hsize : w._glfw.originalRampSize = (GLFW_GAMMA_RAMP_SIZE : Int))
    (hr : randrSelected w = true)
    (hc : w.server.crtcs = t :: ts) (hwf : ramp.wf) (hread : t.readable) :
    _glfwPlatformGetGammaRamp w ramp =
      some ({ w with trace := w.trace ++ [.XRRGetScreenResources, .XRRGetCrtcGamma 0,
                .XRRFreeGamma, .XRRFreeScreenResources] }, t.toRamp) := by
  obtain ⟨h1, h2, h3⟩ := hwf
  obtain ⟨r1, r2, r3⟩ := hread
  unfold randrSelected at hr
  simp [_glfwPlatformGetGammaRamp, hsize, hr, XRRGetScreenResources, hc, XRRGetCrtcGamma,
    World.call, memcpy_take r1 h1, memcpy_take r2 h2, memcpy_take r3 h3, XRRFreeGamma,
    XRRFreeScreenResources, XRRCrtcGamma.toRamp]

theorem get_vidmode (w : World) (ramp : GLFWgammaramp)
    (hsize : w._glfw.originalRampSize = (GLFW_GAMMA_RAMP_SIZE : Int))
    (hr : randrSelected w = false)
    (hv : w._glfw.x11.vidmode.available = true) (hwf : ramp.wf)
    (hread : w.server.screen.readable) :
    _glfwPlatformGetGammaRamp w ramp =
      some ({ w with trace := w.trace ++ [.XF86VidModeGetGammaRamp GLFW_GAMMA_RAMP_SIZE] },
            w.server.screen.toRamp) := by
  obtain ⟨h1, h2, h3⟩ := hwf
  obtain ⟨r1, r2, r3⟩ := hread
  unfold randrSelected at hr
  simp [_glfwPlatformGetGammaRamp, hsize, hr, hv, XF86VidModeGetGammaRamp,
    World.call, memcpy_take r1 h1, memcpy_take r2 h2, memcpy_take r3 h3,
    XRRCrtcGamma.toRamp]

theorem get_no_extension (w : World) (ramp : GLFWgammaramp)
    (hsize : w._glfw.originalRampSize = (GLFW_GAMMA_RAMP_SIZE : Int))
    (hr : randrSelected w = false)
    (hv : w._glfw.x11.vidmode.available = false) :
    _glfwPlatformGetGammaRamp w ramp = some (w, ramp) := by
  unfold randrSelected at hr
  simp [_glfwPlatformGetGammaRamp, hsize, hr, hv]

theorem take_succ_set {α : Type} (g : α) :
    ∀ (l : List α) (i : Nat), i < l.length →
      List.take (i + 1) (l.set i g) = List.take i l ++ [g]
  | [], _, h => by simp at h
  | _ :: _, 0, _ => by simp
  | a :: l, i + 1, h => by
    have := take_succ_set g l i (by simpa using h)
    simp [this]

theorem updateGammaPerMonitor_eq (ramp : GLFWgammaramp) (hwf : ramp.wf) (n : Nat) :
    ∀ (todo i : Nat) (w : World), w.server.crtcs.length = n → i + todo = n →
      updateGammaPerMonitor { ncrtc := n, crtcs := List.range n } ramp todo i w =
        some { w with
          server := { w.server with
            crtcs := w.server.crtcs.take i ++ List.replicate todo ramp.toGamma }
          trace := w.trace ++ (List.range' i todo).flatMap (monitorCalls ramp) } := by
  obtain ⟨h1, h2, h3⟩ := hwf
  intro todo
  induction todo with
  | zero =>
    intro i w hlen hi
    have : List.take i w.server.crtcs = w.server.crtcs :=
      List.take_of_length_le (by omega)
    simp [updateGammaPerMonitor, this]
  | succ k ih =>
    intro i w hlen hi
    have hlt : i < n := by omega
    have hz : (List.replicate GLFW_GAMMA_RAMP_SIZE 0).length = GLFW_GAMMA_RAMP_SIZE := by simp
    have hlt2 : i < w.server.crtcs.length := by omega
    simp only [updateGammaPerMonitor, XRRAllocGamma, Int.toNat_ofNat, memcpy_exact h1 hz,
      memcpy_exact h2 hz, memcpy_exact h3 hz, List.getElem?_range hlt, XRRSetCrtcGamma,
      World.call, hlt2, if_true, XRRFreeGamma]
    rw [ih _ _ (by simpa using hlen) (by omega)]
    simp [take_succ_set _ _ _ hlt2, List.range'_succ, monitorCalls, GLFWgammaramp.toGamma,
      List.replicate_succ]

theorem set_randr (w : World) (ramp : GLFWgammaramp)
    (hsize : w._glfw.originalRampSize = (GLFW_GAMMA_RAMP_SIZE : Int))
    (hr : randrSelected w = true) (hwf : ramp.wf) :
    _glfwPlatformSetGammaRamp w ramp =
      some { w with
        server := { w.server with
          crtcs := List.replicate w.server.crtcs.length ramp.toGamma }
        trace := w.trace ++ [.XRRGetScreenResources] ++
          (List.range' 0 w.server.crtcs.length).flatMap (monitorCalls ramp) ++
          [.XRRFreeScreenResources] } := by
  unfold randrSelected at hr
  simp only [_glfwPlatformSetGammaRamp, hsize, ne_eq, not_true_eq_false, if_false, hr, if_true,
    XRRGetScreenResources]
  rw [updateGammaPerMonitor_eq ramp hwf _ _ _ _ (by simp [World.call]) (by simp)]
  simp [XRRFreeScreenResources, World.call]

theorem set_vidmode (w : World) (ramp : GLFWgammaramp)
    (hsize : w._glfw.originalRampSize = (GLFW_GAMMA_RAMP_SIZE : Int))
    (hr : randrSelected w = false)
    (hv : w._glfw.x11.vidmode.available = true) (hwf : ramp.wf) :
    _glfwPlatformSetGammaRamp w ramp =
      some { w with
        server := { w.server with screen := ramp.toGamma }
        trace := w.trace ++
          [.XF86VidModeSetGammaRamp GLFW_GAMMA_RAMP_SIZE ramp.red ramp.green ramp.blue] } := by
  obtain ⟨h1, h2, h3⟩ := hwf
  unfold randrSelected at hr
  simp [_glfwPlatformSetGammaRamp, hsize, hr, hv, XF86VidModeSetGammaRamp, h1, h2, h3,
    GLFWgammaramp.toGamma, List.take_of_length_le]

theorem set_no_extension (w : World) (ramp : GLFWgammaramp)
    (hsize : w._glfw.originalRampSize = (GLFW_GAMMA_RAMP_SIZE : Int))
    (hr : randrSelected w = false)
    (hv : w._glfw.x11.vidmode.available = false) :
    _glfwPlatformSetGammaRamp w ramp = some w := by
  unfold randrSelected at hr
  simp [_glfwPlatformSetGammaRamp, hsize, hr, hv]

theorem memcpy_eq_take {dst src r : List Nat} {n : Nat} (hd : dst.length = n)
    (h : memcpy dst src n = some r) : n ≤ src.length ∧ r = src.take n := by
  unfold memcpy at h
  split at h
  · next hc =>
    have hdrop : List.drop n dst = [] := by
      rw [List.drop_eq_nil_iff]; omega
    simp [hdrop] at h
    exact ⟨hc.1, h.symm⟩
  · simp at h

/-- Every way in which `_glfwPlatformGetGammaRamp` returns. -/
theorem get_cases (w w' : World) (ramp r' : GLFWgammaramp) (hwf : ramp.wf)
    (h : _glfwPlatformGetGammaRamp w ramp = some (w', r')) :
    (w._glfw.originalRampSize ≠ (GLFW_GAMMA_RAMP_SIZE : Int) ∧
      w' = _glfwInputError w .GLFW_PLATFORM_ERROR getErrorMessage ∧ r' = ramp) ∨
    (w._glfw.originalRampSize = (GLFW_GAMMA_RAMP_SIZE : Int) ∧ randrSelected w = true ∧
      ∃ t, w.server.crtcs.head? = some t ∧ t.readable ∧
        w' = { w with trace := w.trace ++ [.XRRGetScreenResources, .XRRGetCrtcGamma 0,
                .XRRFreeGamma, .XRRFreeScreenResources] } ∧ r' = t.toRamp) ∨
    (w._glfw.originalRampSize = (GLFW_GAMMA_RAMP_SIZE : Int) ∧ randrSelected w = false ∧
      w._glfw.x11.vidmode.available = true ∧ w.server.screen.readable ∧
      w' = { w with trace := w.trace ++ [.XF86VidModeGetGammaRamp GLFW_GAMMA_RAMP_SIZE] } ∧
      r' = w.server.screen.toRamp) ∨
    (w._glfw.originalRampSize = (GLFW_GAMMA_RAMP_SIZE : Int) ∧ randrSelected w = false ∧
      w._glfw.x11.vidmode.available = false ∧ w' = w ∧ r' = ramp) := by
  by_cases hsize : w._glfw.originalRampSize = (GLFW_GAMMA_RAMP_SIZE : Int)
  · right
    cases hr : randrSelected w
    · right
      cases hv : w._glfw.x11.vidmode.available
      · right
        rw [get_no_extension w ramp hsize hr hv] at h
        simp at h
        exact ⟨hsize, rfl, rfl, h.1.symm, h.2.symm⟩
      · left
        have hread : w.server.screen.readable := by
          unfold randrSelected at hr
          simp only [_glfwPlatformGetGammaRamp, hsize, ne_eq, not_true_eq_false, if_false, hr,
            hv, if_true, XF86VidModeGetGammaRamp, Int.toNat_ofNat] at h
          obtain ⟨h1, h2, h3⟩ := hwf
          cases m1 : memcpy ramp.red w.server.screen.red GLFW_GAMMA_RAMP_SIZE with
          | none => simp [m1] at h
          | some a =>
            cases m2 : memcpy ramp.green w.server.screen.green GLFW_GAMMA_RAMP_SIZE with
            | none => simp [m1, m2] at h
            | some b =>
              cases m3 : memcpy ramp.blue w.server.screen.blue GLFW_GAMMA_RAMP_SIZE with
              | none => simp [m1, m2, m3] at h
              | some c =>
                exact ⟨(memcpy_eq_take h1 m1).1, (memcpy_eq_take h2 m2).1,
                  (memcpy_eq_take h3 m3).1⟩
        rw [get_vidmode w ramp hsize hr hv hwf hread] at h
        simp at h
        exact ⟨hsize, rfl, rfl, hread, h.1.symm, h.2.symm⟩
    · left
      have hex : ∃ t, w.server.crtcs.head? = some t ∧ t.readable := by
        unfold randrSelected at hr
        simp only [_glfwPlatformGetGammaRamp, hsize, ne_eq, not_true_eq_false, if_false, hr,
          if_true, XRRGetScreenResources, XRRGetCrtcGamma, World.call] at h
        obtain ⟨h1, h2, h3⟩ := hwf
        cases hc : w.server.crtcs with
        | nil => simp [hc] at h
        | cons t ts =>
          refine ⟨t, rfl, ?_⟩
          simp only [hc, List.length_cons, List.getElem?_range (Nat.succ_pos _),
            List.getElem?_cons_zero] at h
          cases m1 : memcpy ramp.red t.red GLFW_GAMMA_RAMP_SIZE with
          | none => simp [m1] at h
          | some a =>
            cases m2 : memcpy ramp.green t.green GLFW_GAMMA_RAMP_SIZE with
            | none => simp [m1, m2] at h
            | some b =>
              cases m3 : memcpy ramp.blue t.blue GLFW_GAMMA_RAMP_SIZE with
              | none => simp [m1, m2, m3] at h
              | some c =>
                exact ⟨(memcpy_eq_take h1 m1).1, (memcpy_eq_take h2 m2).1,
                  (memcpy_eq_take h3 m3).1⟩
      obtain ⟨t, ht, hread⟩ := hex
      obtain ⟨ts, hc⟩ : ∃ ts, w.server.crtcs = t :: ts := by
        cases hc : w.server.crtcs with
        | nil => simp [hc] at ht
        | cons a ts => simp [hc] at ht; exact ⟨ts, by rw [ht]⟩
      rw [get_randr w ramp t ts hsize hr hc hwf hread] at h
      simp at h
      exact ⟨hsize, rfl, t, ht, hread, h.1.symm, h.2.symm⟩
  · left
    rw [get_size_mismatch w ramp hsize] at h
    simp at h
    exact ⟨hsize, h.1.symm, h.2.symm⟩

/-- Get returns whenever the tables it would read are readable. -/
theorem get_returns (w : World) (ramp : GLFWgammaramp) (hwf : ramp.wf)
    (hread : w._glfw.originalRampSize = (GLFW_GAMMA_RAMP_SIZE : Int) → tablesReadable w) :
    ∃ w' r', _glfwPlatformGetGammaRamp w ramp = some (w', r') := by
  by_cases hsize : w._glfw.originalRampSize = (GLFW_GAMMA_RAMP_SIZE : Int)
  · cases hr : randrSelected w
    · cases hv : w._glfw.x11.vidmode.available
      · exact ⟨_, _, get_no_extension w ramp hsize hr hv⟩
      · exact ⟨_, _, get_vidmode w ramp hsize hr hv hwf ((hread hsize).2 hr hv)⟩
    · obtain ⟨t, ht, hrd⟩ := (hread hsize).1 hr
      obtain ⟨ts, hc⟩ : ∃ ts, w.server.crtcs = t :: ts := by
        cases hc : w.server.crtcs with
        | nil => simp [hc] at ht
        | cons a ts => simp [hc] at ht; exact ⟨ts, by rw [ht]⟩
      exact ⟨_, _, get_randr w ramp t ts hsize hr hc hwf hrd⟩
  · exact ⟨_, _, get_size_mismatch w ramp hsize⟩

theorem monitorCalls_not_vidmode (ramp : GLFWgammaramp) (i n : Nat) :
    ((List.range' i n).flatMap (monitorCalls ramp)).any XCall.isVidMode = false := by
  rw [List.any_eq_false]
  intro c hc
  simp only [List.mem_flatMap, monitorCalls] at hc
  obtain ⟨j, -, hj⟩ := hc
  simp at hj
  rcases hj with rfl | rfl | rfl <;> simp [XCall.isVidMode]

theorem setCrtcGammaCalls_append (xs ys : List XCall) :
    setCrtcGammaCalls (xs ++ ys) = setCrtcGammaCalls xs ++ setCrtcGammaCalls ys := by
  induction xs with
  | nil => rfl
  | cons c cs ih => cases c <;> simp [setCrtcGammaCalls, ih]

theorem setCrtcGammaCalls_monitorCalls (ramp : GLFWgammaramp) (n : Nat) :
    ∀ i, setCrtcGammaCalls ((List.range' i n).flatMap (monitorCalls ramp)) =
      (List.range' i n).map (fun j => (j, ramp.toGamma)) := by
  induction n with
  | zero => intro i; simp [setCrtcGammaCalls]
  | succ k ih =>
    intro i
    simp only [List.range'_succ, List.flatMap_cons, setCrtcGammaCalls_append, ih,
      List.map_cons]
    rfl

/-- Every way in which `_glfwPlatformSetGammaRamp` runs on a well-formed ramp;
it always returns. -/
theorem set_cases (w : World) (ramp : GLFWgammaramp) (hwf : ramp.wf) :
    (w._glfw.originalRampSize ≠ (GLFW_GAMMA_RAMP_SIZE : Int) ∧
      _glfwPlatformSetGammaRamp w ramp =
        some (_glfwInputError w .GLFW_PLATFORM_ERROR setErrorMessage)) ∨
    (w._glfw.originalRampSize = (GLFW_GAMMA_RAMP_SIZE : Int) ∧ randrSelected w = true ∧
      _glfwPlatformSetGammaRamp w ramp =
        some { w with
          server := { w.server with
            crtcs := List.replicate w.server.crtcs.length ramp.toGamma }
          trace := w.trace ++ [.XRRGetScreenResources] ++
            (List.range' 0 w.server.crtcs.length).flatMap (monitorCalls ramp) ++
            [.XRRFreeScreenResources] }) ∨
    (w._glfw.originalRampSize = (GLFW_GAMMA_RAMP_SIZE : Int) ∧ randrSelected w = false ∧
      w._glfw.x11.vidmode.available = true ∧
      _glfwPlatformSetGammaRamp w ramp =
        some { w with
          server := { w.server with screen := ramp.toGamma }
          trace := w.trace ++
            [.XF86VidModeSetGammaRamp GLFW_GAMMA_RAMP_SIZE ramp.red ramp.green ramp.blue] }) ∨
    (w._glfw.originalRampSize = (GLFW_GAMMA_RAMP_SIZE : Int) ∧ randrSelected w = false ∧
      w._glfw.x11.vidmode.available = false ∧ _glfwPlatformSetGammaRamp w ramp = some w) := by
  by_cases hsize : w._glfw.originalRampSize = (GLFW_GAMMA_RAMP_SIZE : Int)
  · right
    cases hr : randrSelected w
    · right
      cases hv : w._glfw.x11.vidmode.available
      · exact Or.inr ⟨hsize, rfl, rfl, set_no_extension w ramp hsize hr hv⟩
      · exact Or.inl ⟨hsize, rfl, rfl, set_vidmode w ramp hsize hr hv hwf⟩
    · exact Or.inl ⟨hsize, rfl, set_randr w ramp hsize hr hwf⟩
  · exact Or.inl ⟨hsize, set_size_mismatch w ramp hsize⟩

theorem toGamma_readable (r : GLFWgammaramp) (hwf : r.wf) : r.toGamma.readable := by
  obtain ⟨h1, h2, h3⟩ := hwf
  simp [XRRCrtcGamma.readable, GLFWgammaramp.toGamma, h1, h2, h3]

theorem toGamma_toRamp (r : GLFWgammaramp) (hwf : r.wf) : r.toGamma.toRamp = r := by
  obtain ⟨h1, h2, h3⟩ := hwf
  cases r
  simp_all [XRRCrtcGamma.toRamp, GLFWgammaramp.toGamma, List.take_of_length_le]

theorem initRandR_probe (w : World) (t : XRRCrtcGamma) (ts : List XRRCrtcGamma)
    (hr : w._glfw.x11.randr.available = true) (hv : randrAtLeast12 w)
    (hc : w.server.crtcs = t :: ts) : initRandR w = some (afterRandRProbe w t) := by
  unfold randrAtLeast12 at hv
  have hv' : (decide (w._glfw.x11.randr.versionMajor > 1) ||
        (decide (w._glfw.x11.randr.versionMajor = 1) &&
          decide (w._glfw.x11.randr.versionMinor ≥ 2))) = true := by
    simpa using hv
  have hcond : (w._glfw.x11.randr.available &&
      (decide (w._glfw.x11.randr.versionMajor > 1) ||
        (decide (w._glfw.x11.randr.versionMajor = 1) &&
          decide (w._glfw.x11.randr.versionMinor ≥ 2)))) = true := by
    rw [hr, hv']; rfl
  simp only [initRandR, hcond, if_true, XRRGetScreenResources, hc,
    List.length_cons, List.getElem?_range (Nat.succ_pos _), XRRGetCrtcGammaSize, World.call,
    List.getElem?_cons_zero, XRRFreeScreenResources, afterRandRProbe]
  by_cases hz : t.size = 0
  · simp [hz]
  · simp only [hz, if_false, decide_False, Bool.false_or, List.append_assoc]
    rfl

theorem initRandR_skip (w : World)
    (h : ¬(w._glfw.x11.randr.available = true ∧ randrAtLeast12 w)) :
    initRandR w = some w := by
  unfold randrAtLeast12 at h
  have h' : (w._glfw.x11.randr.available &&
      (decide (w._glfw.x11.randr.versionMajor > 1) ||
        (decide (w._glfw.x11.randr.versionMajor = 1) &&
          decide (w._glfw.x11.randr.versionMinor ≥ 2)))) = false := by
    rw [Bool.eq_false_iff]
    intro hc
    apply h
    simpa using hc
  simp only [initRandR, h']
  rfl

theorem initRandR_none (w : World)
    (hr : w._glfw.x11.randr.available = true) (hv : randrAtLeast12 w)
    (hc : w.server.crtcs = []) : initRandR w = none := by
  unfold randrAtLeast12 at hv
  have hv' : (decide (w._glfw.x11.randr.versionMajor > 1) ||
        (decide (w._glfw.x11.randr.versionMajor = 1) &&
          decide (w._glfw.x11.randr.versionMinor ≥ 2))) = true := by
    simpa using hv
  simp [initRandR, hr, hv', XRRGetScreenResources, hc]

theorem initVidMode_probe (w : World) (hv : w._glfw.x11.vidmode.available = true)
    (h0 : w._glfw.originalRampSize = 0) :
    initVidMode w =
      { w with
        _glfw := { w._glfw with originalRampSize := w.server.screen.size }
        trace := w.trace ++ [.XF86VidModeGetGammaRampSize] } := by
  simp [initVidMode, hv, h0, XF86VidModeGetGammaRampSize, World.call]

theorem initVidMode_skip (w : World)
    (h : ¬(w._glfw.x11.vidmode.available = true ∧ w._glfw.originalRampSize = 0)) :
    initVidMode w = w := by
  have h' : (w._glfw.x11.vidmode.available && decide (w._glfw.originalRampSize = 0)) =
      false := by
    rw [Bool.eq_false_iff]
    intro hc
    apply h
    simpa using hc
  simp only [initVidMode, h']
  rfl

theorem head?_eq_some_iff {α : Type} (l : List α) (t : α) :
    l.head? = some t ↔ ∃ ts, l = t :: ts := by
  cases l with
  | nil => simp
  | cons a ts => simp

/-- The outcomes of the two probes of `_glfwInitGammaRamp`, started with no ramp
size recorded. -/
theorem detection_cases (w w1 : World) (h0 : w._glfw.originalRampSize = 0)
    (h : initRandR w = some w1) :
    ((w._glfw.x11.randr.available = true ∧ randrAtLeast12 w) ∧
      ∃ t, w.server.crtcs.head? = some t ∧
        ((t.size ≠ 0 ∧ initVidMode w1 = afterRandRProbe w t) ∨
         (t.size = 0 ∧ w._glfw.x11.vidmode.available = true ∧
            initVidMode w1 = afterVidModeProbe (afterRandRProbe w t)) ∨
         (t.size = 0 ∧ w._glfw.x11.vidmode.available = false ∧
            initVidMode w1 = afterRandRProbe w t))) ∨
    (¬(w._glfw.x11.randr.available = true ∧ randrAtLeast12 w) ∧
      ((w._glfw.x11.vidmode.available = true ∧ initVidMode w1 = afterVidModeProbe w) ∨
       (w._glfw.x11.vidmode.available = false ∧ initVidMode w1 = w))) := by
  by_cases hp : w._glfw.x11.randr.available = true ∧ randrAtLeast12 w
  · left
    refine ⟨hp, ?_⟩
    cases hc : w.server.crtcs with
    | nil => rw [initRandR_none w hp.1 hp.2 hc] at h; simp at h
    | cons t ts =>
      rw [initRandR_probe w t ts hp.1 hp.2 hc] at h
      have hw1 : w1 = afterRandRProbe w t := by simpa using h.symm
      refine ⟨t, rfl, ?_⟩
      by_cases hz : t.size = 0
      · right
        cases hv : w._glfw.x11.vidmode.available
        · right
          refine ⟨hz, rfl, ?_⟩
          rw [hw1]
          exact initVidMode_skip _ (by simp [afterRandRProbe, hv])
        · left
          refine ⟨hz, rfl, ?_⟩
          rw [hw1]
          rw [initVidMode_probe _ (by simpa [afterRandRProbe] using hv)
            (by simpa [afterRandRProbe] using hz)]
          rfl
      · left
        refine ⟨hz, ?_⟩
        rw [hw1]
        exact initVidMode_skip _ (by simp [afterRandRProbe, hz])
  · right
    refine ⟨hp, ?_⟩
    rw [initRandR_skip w hp] at h
    have hw1 : w1 = w := by simpa using h.symm
    cases hv : w._glfw.x11.vidmode.available
    · right
      refine ⟨rfl, ?_⟩
      rw [hw1]
      exact initVidMode_skip _ (by simp [hv])
    · left
      refine ⟨rfl, ?_⟩
      rw [hw1, initVidMode_probe w hv h0]
      rfl

/-- What the third block of `_glfwInitGammaRamp` leaves as it found it. -/
theorem initSave_frame (w w' : World) (hwf : w._glfw.originalRamp.wf)
    (h : initSave w = some w') :
    w'.server = w.server ∧ w'._glfw.originalRampSize = w._glfw.originalRampSize ∧
    w'._glfw.x11 = w._glfw.x11 ∧ w'._glfw.rampChanged = w._glfw.rampChanged ∧
    ∃ calls, w'.trace = w.trace ++ calls ∧
      (∀ c ∈ calls, c = .XRRGetScreenResources ∨ c = .XRRGetCrtcGamma 0 ∨
        c = .XRRFreeGamma ∨ c = .XRRFreeScreenResources ∨
        c = .XF86VidModeGetGammaRamp GLFW_GAMMA_RAMP_SIZE) := by
  unfold initSave at h
  split at h
  · cases hg : _glfwPlatformGetGammaRamp w w._glfw.originalRamp with
    | none => simp [hg] at h
    | some p =>
      obtain ⟨w1, r1⟩ := p
      simp only [hg, Option.some.injEq] at h
      subst h
      rcases get_cases w w1 _ r1 hwf hg with
        ⟨-, hw, -⟩ | ⟨-, -, t, -, -, hw, -⟩ | ⟨-, -, -, -, hw, -⟩ | ⟨-, -, -, hw, -⟩
      · subst hw
        exact ⟨rfl, rfl, rfl, rfl, [], by simp [_glfwInputError], by simp⟩
      · subst hw
        exact ⟨rfl, rfl, rfl, rfl, _, rfl, by simp⟩
      · subst hw
        exact ⟨rfl, rfl, rfl, rfl, _, rfl, by simp⟩
      · subst hw
        exact ⟨rfl, rfl, rfl, rfl, [], by simp, by simp⟩
  · simp only [Option.some.injEq] at h
    subst h
    exact ⟨rfl, rfl, rfl, rfl, [], by simp, by simp⟩

/-- What the third block of `_glfwInitGammaRamp` saves when the recorded size is
`GLFW_GAMMA_RAMP_SIZE`. -/
theorem initSave_saved (w w' : World) (hwf : w._glfw.originalRamp.wf)
    (hsize : w._glfw.originalRampSize = (GLFW_GAMMA_RAMP_SIZE : Int))
    (h : initSave w = some w') :
    (randrSelected w = true →
      ∃ t, w.server.crtcs.head? = some t ∧ t.readable ∧ w'._glfw.originalRamp = t.toRamp) ∧
    (randrSelected w = false → w._glfw.x11.vidmode.available = true →
      w.server.screen.readable ∧ w'._glfw.originalRamp = w.server.screen.toRamp) := by
  have hne : w._glfw.originalRampSize ≠ 0 := by
    rw [hsize]; simp [GLFW_GAMMA_RAMP_SIZE]
  unfold initSave at h
  rw [if_pos hne] at h
  cases hg : _glfwPlatformGetGammaRamp w w._glfw.originalRamp with
  | none => simp [hg] at h
  | some p =>
    obtain ⟨w1, r1⟩ := p
    simp only [hg, Option.some.injEq] at h
    subst h
    rcases get_cases w w1 _ r1 hwf hg with
      ⟨hn, -, -⟩ | ⟨-, hr, t, ht, hrd, -, hr1⟩ | ⟨-, hr, hv, hrd, -, hr1⟩ | ⟨-, hr, hv, -, -⟩
    · exact absurd hsize hn
    · exact ⟨fun _ => ⟨t, ht, hrd, hr1⟩, fun hf => (by rw [hr] at hf; cases hf)⟩
    · exact ⟨fun hf => (by rw [hr] at hf; cases hf), fun _ _ => ⟨hrd, hr1⟩⟩
    · exact ⟨fun hf => (by rw [hr] at hf; cases hf),
        fun _ hf => (by rw [hv] at hf; cases hf)⟩

theorem sound_readable (t : XRRCrtcGamma) (hs : t.sound)
    (hsize : t.size = (GLFW_GAMMA_RAMP_SIZE : Int)) : t.readable := by
  obtain ⟨h1, h2, h3⟩ := hs
  rw [hsize] at h1 h2 h3
  unfold XRRCrtcGamma.readable
  omega

theorem sound_toRamp_toGamma (t : XRRCrtcGamma) (hs : t.sound)
    (hsize : t.size = (GLFW_GAMMA_RAMP_SIZE : Int)) : t.toRamp.toGamma = t := by
  obtain ⟨h1, h2, h3⟩ := hs
  rw [hsize] at h1 h2 h3
  cases t
  simp only [GLFWgammaramp.toGamma, XRRCrtcGamma.toRamp, XRRCrtcGamma.mk.injEq]
  simp only at h1 h2 h3 hsize
  refine ⟨hsize.symm, ?_, ?_, ?_⟩ <;> apply List.take_of_length_le <;> omega

/-- The third block of `_glfwInitGammaRamp` returns whenever the tables get would
read are readable. -/
theorem initSave_returns (w : World) (hwf : w._glfw.originalRamp.wf)
    (hread : w._glfw.originalRampSize = (GLFW_GAMMA_RAMP_SIZE : Int) → tablesReadable w) :
    ∃ w', initSave w = some w' := by
  unfold initSave
  split
  · obtain ⟨w1, r1, hg⟩ := get_returns w w._glfw.originalRamp hwf hread
    rw [hg]
    exact ⟨_, rfl⟩
  · exact ⟨_, rfl⟩

/-- Init returns on a sound server on which RandR, when
available, is at version 1.2 or above and has a CRTC. -/
theorem init_returns (w : World) (h0 : w._glfw.originalRampSize = 0)
    (hb : w._glfw.x11.randr.gammaBroken = false) (hwf : w._glfw.originalRamp.wf)
    (hs : w.server.sound)
    (hrr : w._glfw.x11.randr.available = true → w.server.crtcs ≠ [] ∧ randrAtLeast12 w) :
    ∃ w', _glfwInitGammaRamp w = some w' := by
  unfold _glfwInitGammaRamp
  cases h1 : initRandR w with
  | none =>
    exfalso
    by_cases hp : w._glfw.x11.randr.available = true ∧ randrAtLeast12 w
    · cases hc : w.server.crtcs with
      | nil => exact (hrr hp.1).1 hc
      | cons t ts => rw [initRandR_probe w t ts hp.1 hp.2 hc] at h1; cases h1
    · rw [initRandR_skip w hp] at h1; cases h1
  | some w1 =>
    simp only
    have hna : ¬(w._glfw.x11.randr.available = true ∧ randrAtLeast12 w) →
        w._glfw.x11.randr.available = false := by
      intro hp
      cases ha : w._glfw.x11.randr.available
      · rfl
      · exact absurd ⟨ha, (hrr ha).2⟩ hp
    rcases detection_cases w w1 h0 h1 with
      ⟨hp, t, ht, ⟨hz, he⟩ | ⟨hz, hv, he⟩ | ⟨hz, hv, he⟩⟩ | ⟨hp, ⟨hv, he⟩ | ⟨hv, he⟩⟩
    · rw [he]
      have htm : t ∈ w.server.crtcs := by
        obtain ⟨ts, hc⟩ := (head?_eq_some_iff _ _).1 ht
        rw [hc]; simp
      refine initSave_returns _ (by exact hwf) (fun hsz => ?_)
      refine ⟨fun _ => ⟨t, ht, sound_readable t (hs.1 t htm) hsz⟩, fun hf => ?_⟩
      simp [randrSelected, afterRandRProbe, hp.1, hz, hb] at hf
    · rw [he]
      refine initSave_returns _ (by exact hwf) (fun hsz => ?_)
      refine ⟨fun hf => ?_, fun _ _ => sound_readable _ hs.2 hsz⟩
      simp [randrSelected, afterVidModeProbe, afterRandRProbe, hz] at hf
    · rw [he]
      refine initSave_returns _ (by exact hwf) (fun hsz => ?_)
      simp [afterRandRProbe, hz, GLFW_GAMMA_RAMP_SIZE] at hsz
    · rw [he]
      refine initSave_returns _ (by exact hwf) (fun hsz => ?_)
      refine ⟨fun hf => ?_, fun _ _ => sound_readable _ hs.2 hsz⟩
      simp [randrSelected, afterVidModeProbe, hna hp] at hf
    · rw [he]
      refine initSave_returns _ (by exact hwf) (fun hsz => ?_)
      rw [h0] at hsz
      simp [GLFW_GAMMA_RAMP_SIZE] at hsz

theorem randrReportedSize_probe (w : World) (t : XRRCrtcGamma)
    (hp : w._glfw.x11.randr.available = true ∧ randrAtLeast12 w)
    (ht : w.server.crtcs.head? = some t) : randrReportedSize w = t.size := by
  simp [randrReportedSize, hp, ht]

theorem randrReportedSize_skip (w : World)
    (hp : ¬(w._glfw.x11.randr.available = true ∧ randrAtLeast12 w)) :
    randrReportedSize w = 0 := by
  simp only [randrReportedSize, hp, if_false]

theorem sizeQuery_not_mem (calls : List XCall)
    (h : ∀ c ∈ calls, c = .XRRGetScreenResources ∨ c = .XRRGetCrtcGamma 0 ∨
        c = .XRRFreeGamma ∨ c = .XRRFreeScreenResources ∨
        c = .XF86VidModeGetGammaRamp GLFW_GAMMA_RAMP_SIZE) :
    XCall.XF86VidModeGetGammaRampSize ∉ calls := by
  intro hm
  rcases h _ hm with h | h | h | h | h <;> cases h

/-- With `gammaBroken` set, a run of get issues no RandR call and leaves the flag
set. -/
theorem get_broken (v v' : World) (ramp r' : GLFWgammaramp)
    (hb : v._glfw.x11.randr.gammaBroken = true) (hwf : ramp.wf)
    (h : _glfwPlatformGetGammaRamp v ramp = some (v', r')) :
    v'._glfw.x11.randr.gammaBroken = true ∧
      ∃ calls, v'.trace = v.trace ++ calls ∧ calls.any XCall.isRandR = false := by
  have hsel : randrSelected v = false := by simp [randrSelected, hb]
  rcases get_cases v v' ramp r' hwf h with
    ⟨-, hw, -⟩ | ⟨-, hr, -⟩ | ⟨-, -, -, -, hw, -⟩ | ⟨-, -, -, hw, -⟩
  · subst hw; exact ⟨hb, [], by simp [_glfwInputError], rfl⟩
  · rw [hsel] at hr; cases hr
  · subst hw; exact ⟨hb, _, rfl, rfl⟩
  · subst hw; exact ⟨hb, [], by simp, rfl⟩

/-- With `gammaBroken` set, set returns, issues no RandR call and leaves the flag
set. -/
theorem set_broken (v : World) (ramp : GLFWgammaramp)
    (hb : v._glfw.x11.randr.gammaBroken = true) (hwf : ramp.wf) :
    ∃ v' calls, _glfwPlatformSetGammaRamp v ramp = some v' ∧
      v'._glfw.x11.randr.gammaBroken = true ∧
      v'.trace = v.trace ++ calls ∧ calls.any XCall.isRandR = false := by
  have hsel : randrSelected v = false := by simp [randrSelected, hb]
  rcases set_cases v ramp hwf with ⟨-, hs⟩ | ⟨-, hr, -⟩ | ⟨-, -, -, hs⟩ | ⟨-, -, -, hs⟩
  · exact ⟨_, [], hs, hb, by simp [_glfwInputError], rfl⟩
  · rw [hsel] at hr; cases hr
  · exact ⟨_, _, hs, hb, rfl, rfl⟩
  · exact ⟨_, [], hs, hb, by simp, rfl⟩

/-- After a run of init that returned with the supported size recorded, the
tables get would read are readable: init has just read them. -/
theorem init_tablesReadable (w w' : World) (h0 : w._glfw.originalRampSize = 0)
    (hwf : w._glfw.originalRamp.wf) (hinit : _glfwInitGammaRamp w = some w')
    (hsize : w'._glfw.originalRampSize = (GLFW_GAMMA_RAMP_SIZE : Int)) :
    tablesReadable w' := by
  unfold _glfwInitGammaRamp at hinit
  cases h1 : initRandR w with
  | none => simp [h1] at hinit
  | some w1 =>
    simp only [h1] at hinit
    have hwf2 : (initVidMode w1)._glfw.originalRamp.wf := by
      rcases detection_cases w w1 h0 h1 with
        ⟨-, t, -, ⟨-, he⟩ | ⟨-, -, he⟩ | ⟨-, -, he⟩⟩ | ⟨-, ⟨-, he⟩ | ⟨-, he⟩⟩ <;>
      · rw [he]; exact hwf
    obtain ⟨hsrv, hsz, hx, -, -⟩ := initSave_frame _ w' hwf2 hinit
    obtain ⟨s1, s2⟩ := initSave_saved _ w' hwf2 (hsz.symm.trans hsize) hinit
    have hsel : randrSelected w' = randrSelected (initVidMode w1) := by
      simp only [randrSelected, hx]
    refine ⟨fun h => ?_, fun h hv => ?_⟩
    · obtain ⟨t, ht, hrd, -⟩ := s1 (by rw [← hsel]; exact h)
      exact ⟨t, by rw [hsrv]; exact ht, hrd⟩
    · rw [hsrv]
      exact (s2 (by rw [← hsel]; exact h) (by rw [← hx]; exact hv)).1

/-! ## The claims -/

/-- C1: `_glfwTerminateGammaRamp` restores the saved ramp if and only if it was
changed.  When `originalRampSize` is non-zero and `rampChanged` is set, it does
exactly what `_glfwPlatformSetGammaRamp` does with `_glfw.originalRamp`; in every
other state it returns the world it was given: no extension call, no error, the
server's tables and the library state unchanged. -/
theorem C1_terminate_restores_iff_changed (w : World) :
    (w._glfw.originalRampSize ≠ 0 ∧ w._glfw.rampChanged = true →
      _glfwTerminateGammaRamp w = _glfwPlatformSetGammaRamp w w._glfw.originalRamp) ∧
    (¬(w._glfw.originalRampSize ≠ 0 ∧ w._glfw.rampChanged = true) →
      ∃ w', _glfwTerminateGammaRamp w = some w' ∧ w'.trace = w.trace ∧
        w'.errors = w.errors ∧ w'.server = w.server ∧ w'._glfw = w._glfw) := by
  constructor
  · intro h
    simp [_glfwTerminateGammaRamp, h.1, h.2]
  · intro h
    refine ⟨w, ?_, rfl, rfl, rfl, rfl⟩
    unfold _glfwTerminateGammaRamp
    rw [if_neg h]

set_option maxRecDepth 100000 in
/-- C1 at two concrete states: with the ramp changed the two CRTCs get the saved
ramp back; with `rampChanged` clear nothing happens. -/
theorem C1_terminate_restores_iff_changed_witness :
    (_glfwTerminateGammaRamp sampleRandR =
        _glfwPlatformSetGammaRamp sampleRandR sampleRandR._glfw.originalRamp ∧
      (_glfwTerminateGammaRamp sampleRandR).map (fun w => w.server.crtcs) =
        some [constTable 256 7, constTable 256 7]) ∧
    (∃ w', _glfwTerminateGammaRamp
        { sampleRandR with _glfw := { sampleRandR._glfw with rampChanged := false } } =
          some w' ∧ w'.trace = [] ∧ w'.errors = [] ∧
        w'.server = sampleRandR.server ∧
        w'._glfw = { sampleRandR._glfw with rampChanged := false }) :=
  ⟨⟨(C1_terminate_restores_iff_changed sampleRandR).1 (by decide), by decide⟩,
   (C1_terminate_restores_iff_changed
      { sampleRandR with _glfw := { sampleRandR._glfw with rampChanged := false } }).2
      (by decide)⟩

set_option maxRecDepth 100000 in
/-- C2 as stated fails: on a display whose RandR gamma table has 1024 entries, all
equal to 3, init started with `originalRampSize = 0` and `gammaBroken = false`
returns with the non-zero `originalRampSize` 1024, yet `_glfw.originalRamp` is
still the all-zero ramp; it does not hold the entries of the display's table. -/
theorem C2_counterexample :
    startLargeRamp._glfw.originalRampSize = 0 ∧
    startLargeRamp._glfw.x11.randr.gammaBroken = false ∧
    ∃ w', _glfwInitGammaRamp startLargeRamp = some w' ∧
      w'._glfw.originalRampSize ≠ 0 ∧
      reportedTable startLargeRamp = some (constTable 1024 3) ∧
      w'._glfw.originalRamp = constRamp 0 ∧
      w'._glfw.originalRamp ≠ (constTable 1024 3).toRamp ∧
      w'.errors = [(.GLFW_PLATFORM_ERROR, getErrorMessage)] :=
  ⟨by decide, by decide,
   { startLargeRamp with
     _glfw := { startLargeRamp._glfw with originalRampSize := 1024 }
     trace := [.XRRGetScreenResources, .XRRGetCrtcGammaSize 0, .XRRFreeScreenResources]
     errors := [(.GLFW_PLATFORM_ERROR, getErrorMessage)] },
   by decide, by decide, by decide, by decide, by decide, by decide⟩

/-- C2, amended: `_glfwInitGammaRamp` saves the original gamma ramp whenever the
detected size is the supported one.  Started with `originalRampSize = 0` and
`gammaBroken = false`, with RandR at version 1.2 or above when it is available:
every run of init that returns with
`originalRampSize = GLFW_GAMMA_RAMP_SIZE` has `_glfw.originalRamp` holding the
`GLFW_GAMMA_RAMP_SIZE` entries per channel of the table of the extension that
reported the size (the first CRTC for RandR, the screen for XF86VidMode), a
table of that size; when that table has as many entries as its size says, the
saved ramp is the whole table.  Init does return on a sound server on which
RandR, when available, has a CRTC. -/
theorem C2_saves_ramp_of_supported_size (w : World) (h0 : w._glfw.originalRampSize = 0)
    (hb : w._glfw.x11.randr.gammaBroken = false) (hwf : w._glfw.originalRamp.wf)
    (hver : w._glfw.x11.randr.available = true → randrAtLeast12 w) :
    (∀ w', _glfwInitGammaRamp w = some w' →
      w'._glfw.originalRampSize = (GLFW_GAMMA_RAMP_SIZE : Int) →
      ∃ t, reportedTable w = some t ∧ t.size = (GLFW_GAMMA_RAMP_SIZE : Int) ∧
        w'._glfw.originalRamp = t.toRamp ∧
        (t.sound → w'._glfw.originalRamp.toGamma = t)) ∧
    (w.server.sound → (w._glfw.x11.randr.available = true → w.server.crtcs ≠ []) →
      ∃ w', _glfwInitGammaRamp w = some w') := by
  have hG : (GLFW_GAMMA_RAMP_SIZE : Int) ≠ 0 := by simp [GLFW_GAMMA_RAMP_SIZE]
  refine ⟨?_, fun hs hc => init_returns w h0 hb hwf hs (fun ha => ⟨hc ha, hver ha⟩)⟩
  intro w' hinit hsize
  suffices h : ∃ t, reportedTable w = some t ∧ t.size = (GLFW_GAMMA_RAMP_SIZE : Int) ∧
      w'._glfw.originalRamp = t.toRamp by
    obtain ⟨t, h1, h2, h3⟩ := h
    exact ⟨t, h1, h2, h3, fun hs => by rw [h3]; exact sound_toRamp_toGamma t hs h2⟩
  unfold _glfwInitGammaRamp at hinit
  cases h1 : initRandR w with
  | none => simp [h1] at hinit
  | some w1 =>
    simp only [h1] at hinit
    rcases detection_cases w w1 h0 h1 with
      ⟨hp, t, ht, ⟨hz, he⟩ | ⟨hz, hv, he⟩ | ⟨hz, hv, he⟩⟩ | ⟨hp, ⟨hv, he⟩ | ⟨hv, he⟩⟩
    all_goals
      rw [he] at hinit
      obtain ⟨-, hsz, -, -, -⟩ := initSave_frame _ w' (by exact hwf) hinit
      rw [hsize] at hsz
    · have hts : t.size = (GLFW_GAMMA_RAMP_SIZE : Int) := hsz.symm
      obtain ⟨s1, -⟩ := initSave_saved _ w' (by exact hwf) hts hinit
      obtain ⟨t', ht', -, hr⟩ := s1 (by simp [randrSelected, afterRandRProbe, hz, hb, hp.1])
      have htt : t' = t := by
        have : w.server.crtcs.head? = some t' := ht'
        rw [ht] at this
        exact (Option.some.inj this).symm
      subst htt
      refine ⟨t', ?_, hts, hr⟩
      simp [reportedTable, randrReportedSize_probe w t' hp ht, hz, ht]
    · have hss : w.server.screen.size = (GLFW_GAMMA_RAMP_SIZE : Int) := hsz.symm
      obtain ⟨-, s2⟩ := initSave_saved _ w' (by exact hwf) hss hinit
      obtain ⟨-, hr⟩ := s2 (by simp [randrSelected, afterVidModeProbe, afterRandRProbe, hz])
        (by simpa [afterVidModeProbe, afterRandRProbe] using hv)
      refine ⟨w.server.screen, ?_, hss, hr⟩
      simp [reportedTable, randrReportedSize_probe w t hp ht, hz, hv]
    · exfalso
      simp only [afterRandRProbe, hz] at hsz
      exact hG hsz
    · have hss : w.server.screen.size = (GLFW_GAMMA_RAMP_SIZE : Int) := hsz.symm
      have hna : w._glfw.x11.randr.available = false := by
        cases ha : w._glfw.x11.randr.available
        · rfl
        · exact absurd ⟨ha, hver ha⟩ hp
      obtain ⟨-, s2⟩ := initSave_saved _ w' (by exact hwf) hss hinit
      obtain ⟨-, hr⟩ := s2 (by simp [randrSelected, afterVidModeProbe, hna])
        (by simpa [afterVidModeProbe] using hv)
      refine ⟨w.server.screen, ?_, hss, hr⟩
      simp [reportedTable, randrReportedSize_skip w hp, hv]
    · exfalso
      rw [h0] at hsz
      exact hG hsz

set_option maxRecDepth 100000 in
/-- C2, amended, at a concrete start state under RandR 1.2: init returns with the
size 256 and the saved ramp holds the table of the first CRTC. -/
theorem C2_saves_ramp_of_supported_size_witness :
    ∃ w', _glfwInitGammaRamp startRandR = some w' ∧
      reportedTable startRandR = some (constTable 256 3) ∧
      w'._glfw.originalRamp = constRamp 3 := by
  have h := C2_saves_ramp_of_supported_size startRandR (by decide) (by decide) (by decide)
    (fun _ => by decide)
  obtain ⟨w', hw'⟩ := h.2 (by decide) (fun _ => by decide)
  have hsz : w'._glfw.originalRampSize = (GLFW_GAMMA_RAMP_SIZE : Int) := by
    rw [show _glfwInitGammaRamp startRandR = some
      { startRandR with
        _glfw := { startRandR._glfw with originalRampSize := 256, originalRamp := constRamp 3 }
        trace := [.XRRGetScreenResources, .XRRGetCrtcGammaSize 0, .XRRFreeScreenResources,
          .XRRGetScreenResources, .XRRGetCrtcGamma 0, .XRRFreeGamma,
          .XRRFreeScreenResources] } from by decide] at hw'
    rw [← Option.some.inj hw']
    decide
  obtain ⟨t, ht, -, hr, -⟩ := h.1 w' hw' hsz
  have ht' : reportedTable startRandR = some (constTable 256 3) := by decide
  rw [ht'] at ht
  rw [← Option.some.inj ht] at hr
  exact ⟨w', hw', ht', by rw [hr]; decide⟩

set_option maxRecDepth 100000 in
/-- C4 fails on the code: with RandR available at version 1.1 and XF86VidMode
reporting a ramp of `GLFW_GAMMA_RAMP_SIZE` entries, init issues the RandR gamma
call `XRRGetCrtcGamma`, and a later set issues `XRRSetCrtcGamma`, although the
RandR version is below 1.2. -/
theorem C4_randr_gamma_call_below_1_2 :
    startOldRandR._glfw.x11.randr.available = true ∧ ¬randrAtLeast12 startOldRandR ∧
    ∃ w1 w2, _glfwInitGammaRamp startOldRandR = some w1 ∧
      w1.trace = [.XF86VidModeGetGammaRampSize, .XRRGetScreenResources,
        .XRRGetCrtcGamma 0, .XRRFreeGamma, .XRRFreeScreenResources] ∧
      (w1.trace.any XCall.isRandRGamma) = true ∧
      _glfwPlatformSetGammaRamp w1 (constRamp 1) = some w2 ∧
      setCrtcGammaCalls w2.trace = [(0, constTable 256 1)] :=
  ⟨by decide, by decide,
   { startOldRandR with
     _glfw := { startOldRandR._glfw with originalRampSize := 256, originalRamp := constRamp 7 }
     trace := [.XF86VidModeGetGammaRampSize, .XRRGetScreenResources,
        .XRRGetCrtcGamma 0, .XRRFreeGamma, .XRRFreeScreenResources] },
   { startOldRandR with
     _glfw := { startOldRandR._glfw with originalRampSize := 256, originalRamp := constRamp 7 }
     server := { startOldRandR.server with crtcs := [constTable 256 1] }
     trace := [.XF86VidModeGetGammaRampSize, .XRRGetScreenResources,
        .XRRGetCrtcGamma 0, .XRRFreeGamma, .XRRFreeScreenResources,
        .XRRGetScreenResources, .XRRAllocGamma 256, .XRRSetCrtcGamma 0 (constTable 256 1),
        .XRRFreeGamma, .XRRFreeScreenResources] },
   by decide, by decide, by decide, by decide, by decide⟩

/-- C5: only the fixed ramp size is supported.  When `originalRampSize` differs
from `GLFW_GAMMA_RAMP_SIZE`, get and set both return having reported exactly one
`GLFW_PLATFORM_ERROR` and nothing else: no extension call, the caller's ramp (get)
and the server's tables (set) unchanged.  When `originalRampSize` equals
`GLFW_GAMMA_RAMP_SIZE`, neither reports an error: every run of get that returns
leaves the error list as it was, and set returns with the error list as it
was. -/
theorem C5_size_guard (w : World) (ramp : GLFWgammaramp) (hwf : ramp.wf) :
    (w._glfw.originalRampSize ≠ (GLFW_GAMMA_RAMP_SIZE : Int) →
      _glfwPlatformGetGammaRamp w ramp =
        some ({ w with errors := w.errors ++ [(.GLFW_PLATFORM_ERROR, getErrorMessage)] },
              ramp) ∧
      _glfwPlatformSetGammaRamp w ramp =
        some { w with errors := w.errors ++ [(.GLFW_PLATFORM_ERROR, setErrorMessage)] }) ∧
    (w._glfw.originalRampSize = (GLFW_GAMMA_RAMP_SIZE : Int) →
      (∀ w' r', _glfwPlatformGetGammaRamp w ramp = some (w', r') → w'.errors = w.errors) ∧
      (∃ w', _glfwPlatformSetGammaRamp w ramp = some w' ∧ w'.errors = w.errors)) := by
  constructor
  · intro h
    exact ⟨get_size_mismatch w ramp h, set_size_mismatch w ramp h⟩
  · intro h
    constructor
    · intro w' r' hg
      rcases get_cases w w' ramp r' hwf hg with
        ⟨hne, -, -⟩ | ⟨-, -, t, -, -, hw, -⟩ | ⟨-, -, -, -, hw, -⟩ | ⟨-, -, -, hw, -⟩
      · exact absurd h hne
      · rw [hw]
      · rw [hw]
      · rw [hw]
    · rcases set_cases w ramp hwf with ⟨hne, -⟩ | ⟨-, -, hs⟩ | ⟨-, -, -, hs⟩ | ⟨-, -, -, hs⟩
      · exact absurd h hne
      · exact ⟨_, hs, rfl⟩
      · exact ⟨_, hs, rfl⟩
      · exact ⟨_, hs, rfl⟩

set_option maxRecDepth 100000 in
/-- C5 at two concrete states: a reported size of 1024 makes get and set fail
with one error and no call; a size of 256 lets both run without an error. -/
theorem C5_size_guard_witness :
    (_glfwPlatformGetGammaRamp sampleLargeRamp (constRamp 1) =
        some ({ sampleLargeRamp with
                errors := [(.GLFW_PLATFORM_ERROR, getErrorMessage)] }, constRamp 1) ∧
      _glfwPlatformSetGammaRamp sampleLargeRamp (constRamp 1) =
        some { sampleLargeRamp with
               errors := [(.GLFW_PLATFORM_ERROR, setErrorMessage)] }) ∧
    ((∀ w' r', _glfwPlatformGetGammaRamp sampleRandR (constRamp 1) = some (w', r') →
        w'.errors = []) ∧
      (∃ w', _glfwPlatformSetGammaRamp sampleRandR (constRamp 1) = some w' ∧
        w'.errors = [])) :=
  ⟨(C5_size_guard sampleLargeRamp (constRamp 1) (by decide)).1 (by decide),
   (C5_size_guard sampleRandR (constRamp 1) (by decide)).2 (by decide)⟩

/-- C6: the two extensions are mutually exclusive in get and set.  With
`originalRampSize = GLFW_GAMMA_RAMP_SIZE`, the calls issued by a run of get, and
by the run of set, contain a RandR call exactly when `randr.available` holds and
`gammaBroken` does not, and an XF86VidMode call exactly when that condition
fails and `vidmode.available` holds; so at most one extension is used, and get
and set use the same one.  Set always returns; get returns whenever the table
it reads holds `GLFW_GAMMA_RAMP_SIZE` entries. -/
theorem C6_one_extension (w : World) (ramp : GLFWgammaramp)
    (hsize : w._glfw.originalRampSize = (GLFW_GAMMA_RAMP_SIZE : Int)) (hwf : ramp.wf) :
    (∀ w' r', _glfwPlatformGetGammaRamp w ramp = some (w', r') →
      ∃ calls, w'.trace = w.trace ++ calls ∧
        calls.any XCall.isRandR =
          (w._glfw.x11.randr.available && !w._glfw.x11.randr.gammaBroken) ∧
        calls.any XCall.isVidMode =
          (!(w._glfw.x11.randr.available && !w._glfw.x11.randr.gammaBroken) &&
            w._glfw.x11.vidmode.available)) ∧
    (∃ w' calls, _glfwPlatformSetGammaRamp w ramp = some w' ∧
      w'.trace = w.trace ++ calls ∧
      calls.any XCall.isRandR =
        (w._glfw.x11.randr.available && !w._glfw.x11.randr.gammaBroken) ∧
      calls.any XCall.isVidMode =
        (!(w._glfw.x11.randr.available && !w._glfw.x11.randr.gammaBroken) &&
          w._glfw.x11.vidmode.available)) ∧
    (tablesReadable w → ∃ w' r', _glfwPlatformGetGammaRamp w ramp = some (w', r')) := by
  refine ⟨?_, ?_, fun h => get_returns w ramp hwf (fun _ => h)⟩
  · intro w' r' hg
    rcases get_cases w w' ramp r' hwf hg with
      ⟨hne, -, -⟩ | ⟨-, hr, t, -, -, hw, -⟩ | ⟨-, hr, hv, -, hw, -⟩ | ⟨-, hr, hv, hw, -⟩
    · exact absurd hsize hne
    · unfold randrSelected at hr
      exact ⟨_, by rw [hw], by rw [hr]; rfl, by rw [hr]; rfl⟩
    · unfold randrSelected at hr
      exact ⟨_, by rw [hw], by rw [hr]; rfl, by rw [hr, hv]; rfl⟩
    · unfold randrSelected at hr
      exact ⟨[], by rw [hw]; simp, by rw [hr]; rfl, by rw [hr, hv]; rfl⟩
  · rcases set_cases w ramp hwf with
      ⟨hne, -⟩ | ⟨-, hr, hs⟩ | ⟨-, hr, hv, hs⟩ | ⟨-, hr, hv, hs⟩
    · exact absurd hsize hne
    · unfold randrSelected at hr
      refine ⟨_, [.XRRGetScreenResources] ++
        (List.range' 0 w.server.crtcs.length).flatMap (monitorCalls ramp) ++
        [.XRRFreeScreenResources], hs, by simp, ?_, ?_⟩
      · rw [hr]; simp [XCall.isRandR]
      · rw [hr, List.any_append, List.any_append, monitorCalls_not_vidmode]
        rfl
    · unfold randrSelected at hr
      exact ⟨_, _, hs, rfl, by rw [hr]; rfl, by rw [hr, hv]; rfl⟩
    · unfold randrSelected at hr
      exact ⟨_, [], hs, by simp, by rw [hr]; rfl, by rw [hr, hv]; rfl⟩

set_option maxRecDepth 100000 in
/-- C6 at a concrete state in which both extensions are available: get and set
both use RandR only. -/
theorem C6_one_extension_witness :
    (sampleRandR._glfw.originalRampSize = (GLFW_GAMMA_RAMP_SIZE : Int) ∧
      (constRamp 1).wf) ∧
    (∀ w' r', _glfwPlatformGetGammaRamp sampleRandR (constRamp 1) = some (w', r') →
      ∃ calls, w'.trace = sampleRandR.trace ++ calls ∧
        calls.any XCall.isRandR = true ∧ calls.any XCall.isVidMode = false) ∧
    (∃ w' calls, _glfwPlatformSetGammaRamp sampleRandR (constRamp 1) = some w' ∧
      w'.trace = sampleRandR.trace ++ calls ∧
      calls.any XCall.isRandR = true ∧ calls.any XCall.isVidMode = false) :=
  ⟨⟨by decide, by decide⟩,
   (C6_one_extension sampleRandR (constRamp 1) (by decide) (by decide)).1,
   (C6_one_extension sampleRandR (constRamp 1) (by decide) (by decide)).2.1⟩

/-- C7: under RandR, `_glfwPlatformSetGammaRamp` updates the gamma of every
monitor.  With `originalRampSize = GLFW_GAMMA_RAMP_SIZE`, `randr.available` and
not `gammaBroken`, for every ramp and every list of CRTCs (the empty list
included) set returns, the `XRRSetCrtcGamma` calls it issues are exactly one per
CRTC in index order, each carrying the red, green and blue entries of the ramp
unchanged in a table of size `GLFW_GAMMA_RAMP_SIZE`, and afterwards every CRTC
holds that table. -/
theorem C7_randr_set_every_crtc (w : World) (ramp : GLFWgammaramp)
    (hsize : w._glfw.originalRampSize = (GLFW_GAMMA_RAMP_SIZE : Int))
    (hr : w._glfw.x11.randr.available = true)
    (hb : w._glfw.x11.randr.gammaBroken = false) (hwf : ramp.wf) :
    ∃ w' calls, _glfwPlatformSetGammaRamp w ramp = some w' ∧
      w'.trace = w.trace ++ calls ∧
      setCrtcGammaCalls calls =
        (List.range w.server.crtcs.length).map (fun i =>
          (i, { size := GLFW_GAMMA_RAMP_SIZE, red := ramp.red, green := ramp.green,
                blue := ramp.blue })) ∧
      w'.server.crtcs =
        List.replicate w.server.crtcs.length
          { size := GLFW_GAMMA_RAMP_SIZE, red := ramp.red, green := ramp.green,
            blue := ramp.blue } := by
  have hsel : randrSelected w = true := by simp [randrSelected, hr, hb]
  refine ⟨_, [.XRRGetScreenResources] ++
      (List.range' 0 w.server.crtcs.length).flatMap (monitorCalls ramp) ++
      [.XRRFreeScreenResources], set_randr w ramp hsize hsel hwf, by simp, ?_, rfl⟩
  rw [setCrtcGammaCalls_append, setCrtcGammaCalls_append, setCrtcGammaCalls_monitorCalls,
    List.range_eq_range']
  simp [setCrtcGammaCalls, GLFWgammaramp.toGamma]

set_option maxRecDepth 100000 in
/-- C7 at a concrete state with two CRTCs: two `XRRSetCrtcGamma` calls, for CRTC 0
and then CRTC 1, and both CRTCs hold the ramp afterwards. -/
theorem C7_randr_set_every_crtc_witness :
    ∃ w' calls, _glfwPlatformSetGammaRamp sampleRandR (constRamp 1) = some w' ∧
      w'.trace = sampleRandR.trace ++ calls ∧
      setCrtcGammaCalls calls = [(0, constTable 256 1), (1, constTable 256 1)] ∧
      w'.server.crtcs = [constTable 256 1, constTable 256 1] :=
  C7_randr_set_every_crtc sampleRandR (constRamp 1) (by decide) (by decide) (by decide)
    (by decide)

/-- C8: detection and fallback in `_glfwInitGammaRamp`.  Started with
`originalRampSize = 0` and `gammaBroken = false`, every run of init that returns
(a) has `gammaBroken` set exactly when RandR is available at version 1.2 or
above and the first CRTC reports a gamma size of 0, (b) has queried
XF86VidMode for the size exactly when `vidmode.available` holds and RandR did
not yield a non-zero size, and (c) ends with `originalRampSize` equal to the
RandR size if that is non-zero, else to the XF86VidMode size if
`vidmode.available`, else to 0.  Init does return on a sound server on which
RandR, when available, is at version 1.2 or above and has a CRTC. -/
theorem C8_detection_and_fallback (w : World) (h0 : w._glfw.originalRampSize = 0)
    (hb : w._glfw.x11.randr.gammaBroken = false) (hwf : w._glfw.originalRamp.wf) :
    (∀ w', _glfwInitGammaRamp w = some w' →
      (w'._glfw.x11.randr.gammaBroken = true ↔
        (w._glfw.x11.randr.available = true ∧ randrAtLeast12 w ∧
          ∃ t, w.server.crtcs.head? = some t ∧ t.size = 0)) ∧
      (∃ calls, w'.trace = w.trace ++ calls ∧
        (XCall.XF86VidModeGetGammaRampSize ∈ calls ↔
          (w._glfw.x11.vidmode.available = true ∧ randrReportedSize w = 0))) ∧
      w'._glfw.originalRampSize =
        if randrReportedSize w ≠ 0 then randrReportedSize w
        else if w._glfw.x11.vidmode.available = true then w.server.screen.size
        else 0) ∧
    (w.server.sound →
      (w._glfw.x11.randr.available = true → w.server.crtcs ≠ [] ∧ randrAtLeast12 w) →
      ∃ w', _glfwInitGammaRamp w = some w') := by
  refine ⟨?_, init_returns w h0 hb hwf⟩
  intro w' hinit
  unfold _glfwInitGammaRamp at hinit
  cases h1 : initRandR w with
  | none => simp [h1] at hinit
  | some w1 =>
    simp only [h1] at hinit
    rcases detection_cases w w1 h0 h1 with
      ⟨hp, t, ht, ⟨hz, he⟩ | ⟨hz, hv, he⟩ | ⟨hz, hv, he⟩⟩ | ⟨hp, ⟨hv, he⟩ | ⟨hv, he⟩⟩
    · rw [he] at hinit
      obtain ⟨-, hsz, hx, -, calls, htr, hcalls⟩ :=
        initSave_frame _ w' (by exact hwf) hinit
      rw [randrReportedSize_probe w t hp ht]
      refine ⟨?_, ⟨_, by rw [htr]; simp only [afterRandRProbe, List.append_assoc]; rfl, ?_⟩, ?_⟩
      · rw [hx]
        simp [afterRandRProbe, hz, hb, hp, ht]
      · simp [hz, sizeQuery_not_mem calls hcalls]
      · rw [hsz]; simp [afterRandRProbe, hz]
    · rw [he] at hinit
      obtain ⟨-, hsz, hx, -, calls, htr, hcalls⟩ :=
        initSave_frame _ w' (by exact hwf) hinit
      rw [randrReportedSize_probe w t hp ht]
      refine ⟨?_, ⟨_, by rw [htr]; simp only [afterVidModeProbe, afterRandRProbe,
        List.append_assoc]; rfl, ?_⟩, ?_⟩
      · rw [hx]
        simp [afterVidModeProbe, afterRandRProbe, hz, hp, ht]
      · simp [hz, hv]
      · rw [hsz]; simp [afterVidModeProbe, afterRandRProbe, hz, hv]
    · rw [he] at hinit
      obtain ⟨-, hsz, hx, -, calls, htr, hcalls⟩ :=
        initSave_frame _ w' (by exact hwf) hinit
      rw [randrReportedSize_probe w t hp ht]
      refine ⟨?_, ⟨_, by rw [htr]; simp only [afterRandRProbe, List.append_assoc]; rfl, ?_⟩, ?_⟩
      · rw [hx]
        simp [afterRandRProbe, hz, hp, ht]
      · simp [hv, sizeQuery_not_mem calls hcalls]
      · rw [hsz]; simp [afterRandRProbe, hz, hv]
    · rw [he] at hinit
      obtain ⟨-, hsz, hx, -, calls, htr, hcalls⟩ :=
        initSave_frame _ w' (by exact hwf) hinit
      rw [randrReportedSize_skip w hp]
      refine ⟨?_, ⟨_, by rw [htr]; simp only [afterVidModeProbe, List.append_assoc]; rfl, ?_⟩, ?_⟩
      · rw [hx]
        simp only [afterVidModeProbe, hb]
        constructor
        · intro h; cases h
        · intro h; exact absurd ⟨h.1, h.2.1⟩ hp
      · simp [hv]
      · rw [hsz]; simp [afterVidModeProbe, hv]
    · rw [he] at hinit
      obtain ⟨-, hsz, hx, -, calls, htr, hcalls⟩ :=
        initSave_frame _ w' hwf hinit
      rw [randrReportedSize_skip w hp]
      refine ⟨?_, ⟨_, htr, ?_⟩, ?_⟩
      · rw [hx, hb]
        constructor
        · intro h; cases h
        · intro h; exact absurd ⟨h.1, h.2.1⟩ hp
      · simp [hv, sizeQuery_not_mem calls hcalls]
      · rw [hsz, h0]; simp [hv]

set_option maxRecDepth 100000 in
/-- C8 at a concrete start state in which RandR 1.3 reports a gamma size of 0:
init returns with `gammaBroken` set, has queried XF86VidMode, and records the
XF86VidMode size 256. -/
theorem C8_detection_and_fallback_witness :
    ∃ w', _glfwInitGammaRamp startBrokenRandR = some w' ∧
      w'._glfw.x11.randr.gammaBroken = true ∧
      (∃ calls, w'.trace = startBrokenRandR.trace ++ calls ∧
        XCall.XF86VidModeGetGammaRampSize ∈ calls) ∧
      w'._glfw.originalRampSize = 256 := by
  have h := C8_detection_and_fallback startBrokenRandR (by decide) (by decide) (by decide)
  obtain ⟨w', hw'⟩ := h.2 (by decide) (fun _ => by decide)
  obtain ⟨ha, ⟨calls, htr, hb⟩, hc⟩ := h.1 w' hw'
  refine ⟨w', hw', ha.2 ⟨by decide, by decide, constTable 0 0, rfl, rfl⟩,
    ⟨calls, htr, hb.2 ⟨by decide, by decide⟩⟩, ?_⟩
  rw [hc]
  decide

/-- C9: set then get is a round trip.  With
`originalRampSize = GLFW_GAMMA_RAMP_SIZE` and an extension selected (RandR
selected and at least one CRTC, or XF86VidMode selected), setting the ramp `r`
and then getting into `out` both return, and `out` then holds the red, green and
blue entries of `r`. -/
theorem C9_set_get_round_trip (w : World) (r out : GLFWgammaramp)
    (hsize : w._glfw.originalRampSize = (GLFW_GAMMA_RAMP_SIZE : Int))
    (hr : r.wf) (hout : out.wf)
    (hsel : (w._glfw.x11.randr.available && !w._glfw.x11.randr.gammaBroken) = true ∨
      w._glfw.x11.vidmode.available = true)
    (hcrtc : (w._glfw.x11.randr.available && !w._glfw.x11.randr.gammaBroken) = true →
      w.server.crtcs ≠ []) :
    ∃ w1 w2 out', _glfwPlatformSetGammaRamp w r = some w1 ∧
      _glfwPlatformGetGammaRamp w1 out = some (w2, out') ∧
      out'.red = r.red ∧ out'.green = r.green ∧ out'.blue = r.blue := by
  rcases set_cases w r hr with ⟨hne, -⟩ | ⟨-, hs, hset⟩ | ⟨-, hs, hv, hset⟩ | ⟨-, hs, hv, -⟩
  · exact absurd hsize hne
  · obtain ⟨n, hn⟩ : ∃ n, w.server.crtcs.length = n + 1 := by
      have := hcrtc hs
      cases hc : w.server.crtcs with
      | nil => exact absurd hc this
      | cons a l => exact ⟨l.length, rfl⟩
    refine ⟨_, _, r.toGamma.toRamp, hset,
      get_randr _ out r.toGamma (List.replicate n r.toGamma) hsize hs
        (by simp [hn, List.replicate_succ]) hout (toGamma_readable r hr), ?_⟩
    rw [toGamma_toRamp r hr]; exact ⟨rfl, rfl, rfl⟩
  · refine ⟨_, _, r.toGamma.toRamp, hset,
      get_vidmode _ out hsize hs hv hout (toGamma_readable r hr), ?_⟩
    rw [toGamma_toRamp r hr]; exact ⟨rfl, rfl, rfl⟩
  · unfold randrSelected at hs
    rw [hs, hv] at hsel
    simp at hsel

set_option maxRecDepth 100000 in
/-- C9 at two concrete states: under RandR with two CRTCs, and under XF86VidMode
alone. -/
theorem C9_set_get_round_trip_witness :
    (∃ w1 w2 out', _glfwPlatformSetGammaRamp sampleRandR (constRamp 1) = some w1 ∧
      _glfwPlatformGetGammaRamp w1 (constRamp 0) = some (w2, out') ∧
      out'.red = (constRamp 1).red ∧ out'.green = (constRamp 1).green ∧
      out'.blue = (constRamp 1).blue) ∧
    (∃ w1 w2 out', _glfwPlatformSetGammaRamp sampleVidMode (constRamp 1) = some w1 ∧
      _glfwPlatformGetGammaRamp w1 (constRamp 0) = some (w2, out') ∧
      out'.red = (constRamp 1).red ∧ out'.green = (constRamp 1).green ∧
      out'.blue = (constRamp 1).blue) :=
  ⟨C9_set_get_round_trip sampleRandR (constRamp 1) (constRamp 0) (by decide) (by decide)
    (by decide) (by decide) (by decide),
   C9_set_get_round_trip sampleVidMode (constRamp 1) (constRamp 0) (by decide) (by decide)
    (by decide) (by decide) (by decide)⟩

/-- C10: the states `_glfwInitGammaRamp` produces.  For every run of init started
with `originalRampSize = 0` and `gammaBroken = false` that returns: (1) a
non-zero `originalRampSize` implies that RandR is available and not flagged
broken, or that XF86VidMode is available; (2) hence a run of get in that state
returns and has either reported `GLFW_PLATFORM_ERROR` or filled the ramp from the
first CRTC through RandR or from the screen through XF86VidMode; (3) in every
state with `gammaBroken` set, get, set and terminate issue no RandR call and
leave the flag set, and set and terminate return. -/
theorem C10_reachable_state_invariant (w w' : World) (h0 : w._glfw.originalRampSize = 0)
    (hb : w._glfw.x11.randr.gammaBroken = false) (hwf : w._glfw.originalRamp.wf)
    (hinit : _glfwInitGammaRamp w = some w') :
    (w'._glfw.originalRampSize ≠ 0 →
      (w'._glfw.x11.randr.available = true ∧ w'._glfw.x11.randr.gammaBroken = false) ∨
        w'._glfw.x11.vidmode.available = true) ∧
    (∀ ramp, ramp.wf →
      ∃ w'' r', _glfwPlatformGetGammaRamp w' ramp = some (w'', r') ∧
        (w''.errors = w'.errors ++ [(.GLFW_PLATFORM_ERROR, getErrorMessage)] ∨
         (∃ t, w'.server.crtcs.head? = some t ∧ r' = t.toRamp ∧
           w''.trace = w'.trace ++ [.XRRGetScreenResources, .XRRGetCrtcGamma 0,
             .XRRFreeGamma, .XRRFreeScreenResources]) ∨
         (r' = w'.server.screen.toRamp ∧
           w''.trace = w'.trace ++ [.XF86VidModeGetGammaRamp GLFW_GAMMA_RAMP_SIZE]))) ∧
    (∀ v ramp, v._glfw.x11.randr.gammaBroken = true → ramp.wf → v._glfw.originalRamp.wf →
      (∀ v' r', _glfwPlatformGetGammaRamp v ramp = some (v', r') →
        v'._glfw.x11.randr.gammaBroken = true ∧
          ∃ calls, v'.trace = v.trace ++ calls ∧ calls.any XCall.isRandR = false) ∧
      (∃ v' calls, _glfwPlatformSetGammaRamp v ramp = some v' ∧
        v'._glfw.x11.randr.gammaBroken = true ∧
        v'.trace = v.trace ++ calls ∧ calls.any XCall.isRandR = false) ∧
      (∃ v' calls, _glfwTerminateGammaRamp v = some v' ∧
        v'._glfw.x11.randr.gammaBroken = true ∧
        v'.trace = v.trace ++ calls ∧ calls.any XCall.isRandR = false)) := by
  have part1 : w'._glfw.originalRampSize ≠ 0 →
      (w'._glfw.x11.randr.available = true ∧ w'._glfw.x11.randr.gammaBroken = false) ∨
        w'._glfw.x11.vidmode.available = true := by
    unfold _glfwInitGammaRamp at hinit
    cases h1 : initRandR w with
    | none => simp [h1] at hinit
    | some w1 =>
      simp only [h1] at hinit
      rcases detection_cases w w1 h0 h1 with
        ⟨hp, t, ht, ⟨hz, he⟩ | ⟨hz, hv, he⟩ | ⟨hz, hv, he⟩⟩ | ⟨hp, ⟨hv, he⟩ | ⟨hv, he⟩⟩
      all_goals
        rw [he] at hinit
        obtain ⟨-, hsz, hx, -⟩ := initSave_frame _ w' (by exact hwf) hinit
        rw [hsz, hx]
      · intro _; left; simp [afterRandRProbe, hz, hb, hp.1]
      · intro _; right; simpa [afterVidModeProbe, afterRandRProbe] using hv
      · intro hne; simp [afterRandRProbe, hz] at hne
      · intro _; right; simpa [afterVidModeProbe] using hv
      · intro hne; exact absurd h0 hne
  refine ⟨part1, ?_, ?_⟩
  · intro ramp hr
    obtain ⟨w'', r', hg⟩ := get_returns w' ramp hr (init_tablesReadable w w' h0 hwf hinit)
    refine ⟨w'', r', hg, ?_⟩
    rcases get_cases w' w'' ramp r' hr hg with
      ⟨-, hw, -⟩ | ⟨-, -, t, ht, -, hw, hr1⟩ | ⟨-, -, -, -, hw, hr1⟩ | ⟨hsz, hsel, hv, -, -⟩
    · left; rw [hw]; rfl
    · right; left; exact ⟨t, ht, hr1, by rw [hw]⟩
    · right; right; exact ⟨hr1, by rw [hw]⟩
    · exfalso
      have hne : w'._glfw.originalRampSize ≠ 0 := by
        rw [hsz]; simp [GLFW_GAMMA_RAMP_SIZE]
      rcases part1 hne with ⟨ha, hg⟩ | hv'
      · simp [randrSelected, ha, hg] at hsel
      · rw [hv] at hv'; cases hv'
  · intro v ramp hvb hr horig
    refine ⟨fun v' r' hg => get_broken v v' ramp r' hvb hr hg, set_broken v ramp hvb hr, ?_⟩
    unfold _glfwTerminateGammaRamp
    split
    · exact set_broken v _ hvb horig
    · exact ⟨v, [], rfl, hvb, by simp, rfl⟩

set_option maxRecDepth 100000 in
/-- C10 at the state init reaches when RandR 1.3 reports a gamma size of 0: the
recorded size is non-zero and XF86VidMode is available. -/
theorem C10_reachable_state_invariant_witness :
    _glfwInitGammaRamp startBrokenRandR = some afterInitBrokenRandR ∧
    ((afterInitBrokenRandR._glfw.x11.randr.available = true ∧
        afterInitBrokenRandR._glfw.x11.randr.gammaBroken = false) ∨
      afterInitBrokenRandR._glfw.x11.vidmode.available = true) :=
  ⟨by decide,
   (C10_reachable_state_invariant startBrokenRandR afterInitBrokenRandR (by decide)
      (by decide) (by decide) (by decide)).1 (by decide)⟩

end X11Gamma
